import Mathlib

/-!
Verification development for the Takeout metadata merger.

The definitions below are a shallow embedding of the core pipeline of
`app/TakeoutMetadataMergerApp.py`: the media classifier, the sidecar
resolver, the metadata extractor, the exiftool argument builder, the
Stage-1 planner and the Stage-2 merge executor.  Filesystem answers
(directory listings, file-existence checks, subprocess exit codes) are
passed in explicitly, so every function is pure and executable.
-/

/-! ## Python string primitives -/

/-- Model of Python `s.lower()` (adequate for the ASCII names used here). -/
def pyLower (s : String) : String := ⟨s.data.map Char.toLower⟩

/-- Model of Python `s.endswith(p)`. -/
def pyEndsWith (s p : String) : Bool := decide (p.data <:+ s.data)

/-- Model of Python `s.startswith(p)`. -/
def pyStartsWith (s p : String) : Bool := decide (p.data <+: s.data)

/-- Position of the last occurrence of `c` in `cs`, i.e. Python `s.rfind(c)`
    (with `none` for Python's `-1`). -/
def rfindIdx (c : Char) (cs : List Char) : Option Nat :=
  match cs.reverse.indexOf? c with
  | none => none
  | some j => some (cs.length - 1 - j)

/-- Model of `pathlib.PurePath.suffix` on a file name: the substring from the
    last dot, provided that dot is neither the first nor the last character;
    otherwise the empty string.  (CPython: `i = name.rfind('.')`;
    `name[i:]` if `0 < i < len(name) - 1` else `''`.) -/
def pySuffix (name : String) : String :=
  match rfindIdx '.' name.data with
  | none => ""
  | some i => if 0 < i ∧ i < name.data.length - 1 then ⟨name.data.drop i⟩ else ""

/-- Model of `pathlib.PurePath.stem` on a file name: the name with `pySuffix`
    removed. -/
def pyStem (name : String) : String :=
  match rfindIdx '.' name.data with
  | none => name
  | some i => if 0 < i ∧ i < name.data.length - 1 then ⟨name.data.take i⟩ else name

/-! ## Media classifier (section 4.1; source lines 54-67)

The extension sets are exactly the Python sets `IMAGE_EXTS`, `VIDEO_EXTS`,
`MEDIA_EXTS = IMAGE_EXTS | VIDEO_EXTS` and `ALBUM_JSON_NAMES`. -/

def IMAGE_EXTS : List String :=
  [".jpg", ".jpeg", ".png", ".heic", ".dng", ".tif", ".tiff", ".webp"]

def VIDEO_EXTS : List String := [".mp4", ".mov", ".avi", ".m4v"]

def MEDIA_EXTS : List String := IMAGE_EXTS ++ VIDEO_EXTS

def ALBUM_JSON_NAMES : List String := ["metadata.json", "album.json"]

/-- Model of `is_media_file` on a file name (the `p.is_file()` conjunct is
    handled by only listing plain files in the filesystem model):
    `p.suffix.lower() in MEDIA_EXTS`. -/
def is_media_file (name : String) : Bool := MEDIA_EXTS.contains (pyLower (pySuffix name))

/-- Model of `is_image_file`: `p.suffix.lower() in IMAGE_EXTS`. -/
def is_image_file (name : String) : Bool := IMAGE_EXTS.contains (pyLower (pySuffix name))

/-- Model of `is_video_file`: `p.suffix.lower() in VIDEO_EXTS`. -/
def is_video_file (name : String) : Bool := VIDEO_EXTS.contains (pyLower (pySuffix name))

/-- Model of `is_album_json`: `p.name.lower() in ALBUM_JSON_NAMES`. -/
def is_album_json (name : String) : Bool := ALBUM_JSON_NAMES.contains (pyLower name)

/-- Model of the Stage-1 count-pass helper `is_media_name` (source line 971):
    `n = name.lower()`; true iff `n.endswith(ext)` for some `ext` in
    `MEDIA_EXTS`. -/
def is_media_name (name : String) : Bool :=
  MEDIA_EXTS.any (fun ext => pyEndsWith (pyLower name) ext)

/-! ## Sidecar resolver (section 4.2; source `find_sidecar_json`, lines 71-79)

A media file is identified by its file name; the content of its directory is
passed in as the listing `files` (the names of the plain files living next to
the media file, in directory listing order).  `exact.exists()` is answered by
membership in that listing, and `parent.glob(f"{base}*.json")` returns, in
listing order, the names matching the glob pattern `stem*.json`. -/

/-- Glob match for the pattern `stem*.json`: the name decomposes as
    `stem ++ mid ++ ".json"` for some (possibly empty) `mid`. -/
def globStemJson (stem name : String) : Bool :=
  pyStartsWith name stem && pyEndsWith name ".json" &&
    decide (stem.data.length + 5 ≤ name.data.length)

/-- Model of `find_sidecar_json`.  `name` is the media file's name, and
    `files` the directory listing.  The exact candidate is
    `media_path.with_suffix(media_path.suffix + ".json")`, i.e.
    `name ++ ".json"` (media names have a non-empty suffix).  The fallback
    glob candidates are sorted by `len(p.name)` with Python's stable sort and
    the first is returned. -/
def find_sidecar_json (name : String) (files : List String) : Option String :=
  let exact := name ++ ".json"
  if files.contains exact then some exact
  else
    let base := pyStem name
    let cands := files.filter (fun c => globStemJson base c && !is_album_json c)
    (cands.insertionSort (fun a b => a.data.length ≤ b.data.length)).head?

/-- Lexicographic (code-point) order on char lists, for the specification's
    "lexical order" tie-break. -/
def charListLt : List Char → List Char → Bool
  | [], [] => false
  | [], _ :: _ => true
  | _ :: _, [] => false
  | c :: cs, d :: ds =>
      if c.val < d.val then true
      else if d.val < c.val then false
      else charListLt cs ds

/-- Resolver as the specification's words describe it (used to compare with
    the source-derived `find_sidecar_json`): candidates are the files whose
    name starts with the media file's stem and ends in ".json", excluding
    album-level JSON, and the winner is minimal by filename length with ties
    broken by lexical order. -/
def findSidecarSpec (name : String) (files : List String) : Option String :=
  let exact := name ++ ".json"
  if files.contains exact then some exact
  else
    let base := pyStem name
    let cands := files.filter
      (fun c => pyStartsWith c base && pyEndsWith c ".json" && !is_album_json c)
    cands.foldl
      (fun best c =>
        match best with
        | none => some c
        | some b =>
            if c.data.length < b.data.length ∨
                (c.data.length = b.data.length ∧ charListLt c.data b.data = true)
            then some c else some b)
      none

/-! ## JSON values and Python coercions

A parsed sidecar document is a JSON value.  Python distinguishes ints from
floats, and `bool` is a subclass of `int`, so `isinstance(x, (int, float))`
accepts booleans; the model keeps the three constructors separate and treats
them all as numeric. -/

inductive Json where
  | null
  | bool (b : Bool)
  | int (n : Int)
  | float (q : Rat)
  | str (s : String)
  | arr (xs : List Json)
  | obj (kvs : List (String × Json))

/-- Python truthiness of a JSON value. -/
def truthy : Json → Bool
  | .null => false
  | .bool b => b
  | .int n => n != 0
  | .float q => q != 0
  | .str s => s != ""
  | .arr xs => !xs.isEmpty
  | .obj kvs => !kvs.isEmpty

/-- Model of `dict.get` on a parsed JSON object (objects produced by
    `json.load` have unique keys, so first-match lookup is adequate). -/
def jlookup (kvs : List (String × Json)) (k : String) : Option Json :=
  (kvs.find? (fun kv => kv.1 == k)).map (·.2)

/-- Model of Python `a or b` over `dict.get` results (`none` is Python
    `None`): the first operand if truthy, otherwise the second. -/
def pyOr (a b : Option Json) : Option Json :=
  match a with
  | some v => if truthy v then some v else b
  | none => b

/-- Decimal digit run with single underscores between digits, as accepted by
    Python `int(str)` after sign. -/
def digitsUnd : List Char → Bool
  | [] => true
  | '_' :: c :: rest => c.isDigit && digitsUnd rest
  | '_' :: [] => false
  | c :: rest => c.isDigit && digitsUnd rest

/-- Numeric value of a digit list (underscores removed). -/
def digitsVal (cs : List Char) : Int :=
  cs.foldl (fun a c => a * 10 + ((c.toNat - '0'.toNat : Nat) : Int)) 0

/-- Model of Python `int(s)` for a string: strip whitespace, optional sign,
    base-10 digits (underscores between digits allowed); `none` models
    `ValueError`. -/
def pyIntOfStr (s : String) : Option Int :=
  let cs := (((s.data.dropWhile Char.isWhitespace).reverse.dropWhile
      Char.isWhitespace).reverse)
  let (sign, body) : Int × List Char :=
    match cs with
    | '+' :: r => (1, r)
    | '-' :: r => (-1, r)
    | r => (1, r)
  match body with
  | [] => none
  | c :: rest =>
      if c.isDigit && digitsUnd rest then
        some (sign * digitsVal ((c :: rest).filter (fun ch => ch != '_')))
      else none

/-- Model of Python `int(x)` on a JSON value; `none` models the exception
    swallowed by the extractor's `except: pass`. -/
def pyInt : Json → Option Int
  | .int n => some n
  | .bool b => some (if b then 1 else 0)
  | .float q => some (if q < 0 then -((-q).floor) else q.floor)
  | .str s => pyIntOfStr s
  | _ => none

/-- Fractional decimal digits of `rem / den`, at most `k` of them, stopping
    when the remainder hits zero. -/
def fracDigits : Nat → Nat → Nat → List Nat
  | 0, _, _ => []
  | k + 1, rem, den =>
      if rem = 0 then []
      else (rem * 10 / den) :: fracDigits k (rem * 10 % den) den

/-- Rendering of a float by Python `str`, for values with a terminating
    decimal expansion in the plain (non-scientific) range — the only floats
    the sidecar pipeline feeds back into argument strings. -/
def floatStr (q : Rat) : String :=
  let ip := q.num.natAbs / q.den
  let rem := q.num.natAbs % q.den
  let fds := fracDigits 17 rem q.den
  (if q < 0 then "-" else "") ++ toString ip ++ "." ++
    (if fds.isEmpty then "0" else String.mk (fds.map Nat.digitChar))

/-- Python `repr` of a JSON value (string escaping not modelled; containers
    never reach the argument builder from real sidecar fields). -/
def pyReprJson : Json → String
  | .null => "None"
  | .bool b => if b then "True" else "False"
  | .int n => toString n
  | .float q => floatStr q
  | .str s => "'" ++ s ++ "'"
  | .arr xs => "[" ++ String.intercalate ", " (xs.attach.map (fun x => pyReprJson x.1)) ++ "]"
  | .obj kvs =>
      "\x7b" ++
        String.intercalate ", "
          (kvs.attach.map (fun kv => "'" ++ kv.1.1 ++ "': " ++ pyReprJson kv.1.2)) ++
      "\x7d"
decreasing_by
  · have := List.sizeOf_lt_of_mem x.2
    simp only [Json.arr.sizeOf_spec]
    omega
  · have h1 := List.sizeOf_lt_of_mem kv.2
    have h2 : sizeOf kv.1.2 < sizeOf kv.1 := by
      obtain ⟨⟨a, b⟩, hm⟩ := kv
      simp
    simp only [Json.obj.sizeOf_spec]
    omega

/-- Python `str(x)` of a JSON value, as used by f-string interpolation. -/
def fStr : Json → String
  | .str s => s
  | .null => "None"
  | .bool b => if b then "True" else "False"
  | .int n => toString n
  | .float q => floatStr q
  | .arr xs => pyReprJson (.arr xs)
  | .obj kvs => pyReprJson (.obj kvs)

/-! ## Metadata extractor (section 4.3; source `extract_google_fields`,
lines 81-101)

The single Python function is split into one definition per extraction rule;
`extract_google_fields` below combines them exactly as the source does.
Failure (`none`) models an exception escaping the function — `json.load`
errors are handled separately by the merge loop, so the input here is an
already-parsed JSON value. -/

/-- Timestamp rule: `pt = data.get("photoTakenTime") or data.get("creationTime")`;
    if `isinstance(pt, dict) and "timestamp" in pt` then `int(pt["timestamp"])`
    with the exception swallowed, else the field stays `None`. -/
def ts_of (kvs : List (String × Json)) : Option Int :=
  match pyOr (jlookup kvs "photoTakenTime") (jlookup kvs "creationTime") with
  | some (.obj pt) =>
      match jlookup pt "timestamp" with
      | some v => pyInt v
      | none => none
  | _ => none

/-- Description rule: `data.get("description") or data.get("caption") or None`. -/
def desc_of (kvs : List (String × Json)) : Option Json :=
  match pyOr (jlookup kvs "description") (jlookup kvs "caption") with
  | some v => if truthy v then some v else none
  | none => none

/-- Keyword rule: `for p in (data.get("people") or []): name = p.get("name");
    if name: keywords.append(str(name))`.  A truthy non-list `people`, or a
    list element without `.get` (a non-dict), raises — modelled by `none`. -/
def keywords_of (people : Option Json) : Option (List String) :=
  let it : Option Json :=
    match people with
    | some v => if truthy v then some v else none
    | none => none
  match it with
  | none => some []
  | some (.arr ps) =>
      ps.foldl
        (fun acc p =>
          match acc, p with
          | some ks, .obj pkv =>
              match jlookup pkv "name" with
              | some nv => if truthy nv then some (ks ++ [fStr nv]) else some ks
              | none => some ks
          | _, _ => none)
        (some [])
  | some _ => none

/-- Model of `isinstance(x, (int, float))` — booleans are ints in Python. -/
def isNum : Json → Bool
  | .int _ => true
  | .float _ => true
  | .bool _ => true
  | _ => false

/-- Numeric value of a JSON number for Python `==`/`!=` comparison with `0`. -/
def numVal : Json → Rat
  | .int n => (n : Rat)
  | .float q => q
  | .bool b => if b then 1 else 0
  | _ => 0

/-- Model of the inner `pick_geo(g)` (source lines 93-97): a candidate block
    must be a dict whose latitude and longitude are both numeric and not both
    exactly zero; altitude is passed through only if numeric. -/
def pick_geo (g : Option Json) : Option (Json × Json × Option Json) :=
  match g with
  | some (.obj gd) =>
      match jlookup gd "latitude", jlookup gd "longitude" with
      | some la, some lo =>
          if isNum la && isNum lo && !(numVal la == 0 && numVal lo == 0) then
            some (la, lo,
              match jlookup gd "altitude" with
              | some al => if isNum al then some al else none
              | none => none)
          else none
      | _, _ => none
  | _ => none

/-- Geolocation rule: `geo = pick_geo(data.get("geoDataExif")) or
    pick_geo(data.get("geoData"))` (a returned triple is always truthy). -/
def geo_of (kvs : List (String × Json)) : Option (Json × Json × Option Json) :=
  (pick_geo (jlookup kvs "geoDataExif")).or (pick_geo (jlookup kvs "geoData"))

/-- Normalized field set produced by the extractor (the `out` dict). -/
structure GoogleFields where
  taken_timestamp : Option Int
  description : Option Json
  latitude : Option Json
  longitude : Option Json
  altitude : Option Json
  keywords : List String

/-- Model of `extract_google_fields` on a parsed document.  A non-object
    document makes every `data.get` raise (`none`); so does a bad `people`
    entry. -/
def extract_google_fields (data : Json) : Option GoogleFields :=
  match data with
  | .obj kvs =>
      (keywords_of (jlookup kvs "people")).map (fun ks =>
        let g := geo_of kvs
        { taken_timestamp := ts_of kvs
          description := desc_of kvs
          latitude := g.map (·.1)
          longitude := g.map (·.2.1)
          altitude := g.bind (·.2.2)
          keywords := ks })
  | _ => none

/-! ## Tool-argument builder (section 4.4; source `build_exiftool_args`,
lines 103-121) -/

/-- Zero-padded two-digit decimal. -/
def pad2 (n : Nat) : String := if n < 10 then "0" ++ toString n else toString n

/-- Civil date from days since the Unix epoch (proleptic Gregorian), the
    standard era-based conversion used by `datetime.utcfromtimestamp`. -/
def civilFromDays (z0 : Int) : Int × Nat × Nat :=
  let z := z0 + 719468
  let era := z.ediv 146097
  let doe := (z - era * 146097).toNat
  let yoe := (doe - doe / 1460 + doe / 36524 - doe / 146096) / 365
  let y := (yoe : Int) + era * 400
  let doy := doe - (365 * yoe + yoe / 4 - yoe / 100)
  let mp := (5 * doy + 2) / 153
  let d := doy - (153 * mp + 2) / 5 + 1
  let m := if mp < 10 then mp + 3 else mp - 9
  (if m ≤ 2 then y + 1 else y, m, d)

/-- Model of `datetime.utcfromtimestamp(ts).strftime("%Y:%m:%d %H:%M:%S")`. -/
def utcStamp (ts : Int) : String :=
  let days := ts.ediv 86400
  let secs := (ts.emod 86400).toNat
  let ymd := civilFromDays days
  toString ymd.1 ++ ":" ++ pad2 ymd.2.1 ++ ":" ++ pad2 ymd.2.2 ++ " " ++
    pad2 (secs / 3600) ++ ":" ++ pad2 (secs % 3600 / 60) ++ ":" ++ pad2 (secs % 60)

/-- Model of `build_exiftool_args(exiftool, overwrite, fields, target)`.
    Note the Python truthiness tests: `if ts:` skips a zero timestamp,
    `if desc:` skips a falsy description, and `kws and overwrite` skips the
    keyword-clearing argument when the keyword list is empty. -/
def build_exiftool_args (exiftool : String) (overwrite : Bool) (f : GoogleFields)
    (target : String) : List String :=
  let args := [exiftool]
  let args := args ++ (if overwrite then ["-overwrite_original"] else [])
  let args := args ++ ["-P", "-m", "-n"]
  let args := args ++
    (match f.taken_timestamp with
     | some ts =>
         if ts == 0 then []
         else
           let stamp := utcStamp ts
           ["-DateTimeOriginal=" ++ stamp, "-CreateDate=" ++ stamp,
            "-ModifyDate=" ++ stamp]
     | none => [])
  let args := args ++
    (match f.latitude, f.longitude with
     | some la, some lo =>
         ["-GPSLatitude=" ++ fStr la, "-GPSLongitude=" ++ fStr lo] ++
           (match f.altitude with
            | some al => ["-GPSAltitude=" ++ fStr al]
            | none => [])
     | _, _ => [])
  let args := args ++
    (match f.description with
     | some d =>
         if truthy d then
           ["-XMP:Description=" ++ fStr d, "-IPTC:Caption-Abstract=" ++ fStr d]
         else []
     | none => [])
  let args := args ++
    (if !f.keywords.isEmpty && overwrite then ["-XMP:Subject="] else [])
  let args := args ++ f.keywords.map (fun kw => "-XMP:Subject+=-" ++ kw ++ "-")
  args ++ [target]

/-! ## Filesystem model

Paths are component lists; a directory snapshot lists its plain files in
listing order.  Rendering a path (Python `str(path)`) joins components. -/

abbrev FsPath := List String

/-- Model of `str(path)` (POSIX rendering). -/
def pathStr (p : FsPath) : String := String.intercalate "/" p

/-- Filesystem effect performed by the merge stage: `ensure_dir` or
    `shutil.move`. -/
inductive FsOp where
  | mkdir (dir : FsPath)
  | move (src dst : FsPath)
  deriving DecidableEq

/-- Whether an effect is a file move. -/
def FsOp.isMove : FsOp → Bool
  | .move _ _ => true
  | _ => false

/-- One directory of the source snapshot: its path relative to the source
    root and the names of the plain files in it, in listing order. -/
structure FsDir where
  relDir : FsPath
  files : List String

/-! ## Plan builder (Stage 1, section 4.6; source `stage_plan`,
lines 822-1118)

The subdirectory inventory pass is the traversal substrate producing the
directory list; the model takes that list (`dirs`) as input and performs the
count pass and the mapping pass over it, with no stop request. -/

/-- One plan entry: `(media_path, sidecar_path or None)`, with the media file
    given by its directory (relative to the source root) and name. -/
structure PlanEntry where
  relDir : FsPath
  name : String
  sidecar : Option String

/-- Count pass (Pass 1): count the files whose lowercased name ends in a
    media extension (`is_media_name`). -/
def total_media_count (dirs : List FsDir) : Nat :=
  (dirs.map (fun d => d.files.countP (fun n => is_media_name n))).sum

/-- Mapping pass: every `is_media_file` file becomes exactly one plan entry,
    in traversal order, with its sidecar resolved against the directory's own
    listing. -/
def plan_of (dirs : List FsDir) : List PlanEntry :=
  (dirs.map (fun d =>
    (d.files.filter (fun n => is_media_file n)).map
      (fun n => PlanEntry.mk d.relDir n (find_sidecar_json n d.files)))).flatten

/-- Image counter of the mapping pass (`if is_image_file(file_path)`). -/
def stage1_images (dirs : List FsDir) : Nat :=
  (dirs.map (fun d =>
    (d.files.filter (fun n => is_media_file n)).countP
      (fun n => is_image_file n))).sum

/-- Video counter of the mapping pass (`if is_video_file(file_path)`). -/
def stage1_videos (dirs : List FsDir) : Nat :=
  (dirs.map (fun d =>
    (d.files.filter (fun n => is_media_file n)).countP
      (fun n => is_video_file n))).sum

/-- The part of the AnalysisSummary the claims speak about (live pairs and
    byte sizes are stat-dependent telemetry and are not modelled). -/
structure Analysis where
  total : Nat
  images : Nat
  videos : Nat
  with_json : Nat
  without_json : Nat

/-- Model of Stage 1 without a stop request: the count pass fixes `total`;
    if it is zero the all-zero summary is returned and the mapping pass never
    runs; otherwise the mapping pass builds the plan and the remaining
    counters. -/
def stage_plan (dirs : List FsDir) : Analysis × List PlanEntry :=
  let total := total_media_count dirs
  if total = 0 then (⟨0, 0, 0, 0, 0⟩, [])
  else
    let plan := plan_of dirs
    (⟨total, stage1_images dirs, stage1_videos dirs,
      plan.countP (fun e => e.sidecar.isSome),
      plan.countP (fun e => e.sidecar.isNone)⟩, plan)

/-! ## Merge executor (Stage 2, section 4.8; source `move_pair`,
`run_exiftool`, `stage_merge`, lines 1120-1258)

Filesystem and subprocess answers are carried by each entry: whether the
resolved sidecar still exists at processing time, the outcome of
`extract_google_fields` (with `none` for any exception, including JSON parse
errors), the exit codes of the two exiftool invocations, and the resolved
live partner.  CSV `note` text is subprocess output and is not modelled; the
partner warning it records is visible in the status column. -/

structure Orch where
  source : FsPath
  completed : FsPath
  failed : FsPath
  logs : FsPath
  preserve : Bool
  overwrite : Bool
  dry_run : Bool
  exiftool : String
  exiftoolFound : Bool

/-- Destination of the media file in `move_pair`: bare name under the
    destination root, or the source-relative path recreated under it. -/
def dest_media_path (preserve : Bool) (destRoot relDir : FsPath) (name : String) : FsPath :=
  if preserve then destRoot ++ relDir ++ [name] else destRoot ++ [name]

/-- Destination of the sidecar in `move_pair`: always renamed to
    `media.name + ".json"`. -/
def dest_json_path (preserve : Bool) (destRoot relDir : FsPath) (name : String) : FsPath :=
  if preserve then destRoot ++ relDir ++ [name ++ ".json"]
  else destRoot ++ [name ++ ".json"]

/-- Model of `Orchestrator.move_pair`: `ensure_dir(dest_media.parent)` runs
    unconditionally; the moves run only outside dry-run mode, and the sidecar
    is moved only if present and still existing. -/
def move_pair (o : Orch) (relDir : FsPath) (name : String) (sidecar : Option String)
    (sidecarExists : Bool) (ok : Bool) : List FsOp :=
  let destRoot := if ok then o.completed else o.failed
  let dest_media := dest_media_path o.preserve destRoot relDir name
  let dest_json := dest_json_path o.preserve destRoot relDir name
  [FsOp.mkdir dest_media.dropLast] ++
    (if o.dry_run then []
     else
       [FsOp.move (o.source ++ relDir ++ [name]) dest_media] ++
         (match sidecar with
          | some sc =>
              if sidecarExists then
                [FsOp.mkdir dest_json.dropLast,
                 FsOp.move (o.source ++ relDir ++ [sc]) dest_json]
              else []
          | none => []))

/-- One plan entry as Stage 2 sees it, together with the environment's
    answers for it. -/
structure MergeEntry where
  relDir : FsPath
  name : String
  sidecar : Option String
  sidecarExists : Bool
  parsed : Option GoogleFields
  rc : Int
  partner : Option String
  rc2 : Int

/-- CSV row of the report (media path, sidecar path or empty, status). -/
structure Row where
  media : FsPath
  sidecar : Option FsPath
  status : String

/-- Everything one loop iteration contributes: the CSV row, the filesystem
    effects, the subprocess invocations actually performed, and the counter
    and failure-taxonomy increments. -/
structure EntryResult where
  row : Row
  ops : List FsOp
  calls : List (List String)
  dOk : Nat
  dFail : Nat
  dWarn : Nat
  dNoJson : Nat
  dBadJson : Nat
  dExif : Nat
  dPartner : Nat

/-- Model of one iteration of the `stage_merge` loop body (source lines
1197-1254).  `run_exiftool` returns exit code 0 without spawning a subprocess
in dry-run mode. -/
def process_entry (o : Orch) (e : MergeEntry) : EntryResult :=
  let mediaPath := o.source ++ e.relDir ++ [e.name]
  let noJson : EntryResult :=
    { row := ⟨mediaPath, none, "FAILED"⟩
      ops := move_pair o e.relDir e.name none false false
      calls := [], dOk := 0, dFail := 1, dWarn := 0
      dNoJson := 1, dBadJson := 0, dExif := 0, dPartner := 0 }
  match e.sidecar with
  | none => noJson
  | some sc =>
      if !e.sidecarExists then noJson
      else
        let scPath := o.source ++ e.relDir ++ [sc]
        match e.parsed with
        | none =>
            { row := ⟨mediaPath, some scPath, "FAILED"⟩
              ops := move_pair o e.relDir e.name (some sc) true false
              calls := [], dOk := 0, dFail := 1, dWarn := 0
              dNoJson := 0, dBadJson := 1, dExif := 0, dPartner := 0 }
        | some flds =>
            let args := build_exiftool_args o.exiftool o.overwrite flds (pathStr mediaPath)
            let calls1 : List (List String) := if o.dry_run then [] else [args]
            let rc := if o.dry_run then 0 else e.rc
            if rc != 0 then
              { row := ⟨mediaPath, some scPath, "FAILED"⟩
                ops := move_pair o e.relDir e.name (some sc) true false
                calls := calls1, dOk := 0, dFail := 1, dWarn := 0
                dNoJson := 0, dBadJson := 0, dExif := 1, dPartner := 0 }
            else
              match e.partner with
              | none =>
                  { row := ⟨mediaPath, some scPath, "COMPLETED"⟩
                    ops := move_pair o e.relDir e.name (some sc) true true
                    calls := calls1, dOk := 1, dFail := 0, dWarn := 0
                    dNoJson := 0, dBadJson := 0, dExif := 0, dPartner := 0 }
              | some pn =>
                  let args2 := build_exiftool_args o.exiftool o.overwrite flds
                    (pathStr (o.source ++ e.relDir ++ [pn]))
                  let calls2 := calls1 ++ (if o.dry_run then [] else [args2])
                  let rc2 := if o.dry_run then 0 else e.rc2
                  if rc2 != 0 then
                    { row := ⟨mediaPath, some scPath, "COMPLETED_WITH_PARTNER_WARN"⟩
                      ops := move_pair o e.relDir e.name (some sc) true true
                      calls := calls2, dOk := 1, dFail := 0, dWarn := 1
                      dNoJson := 0, dBadJson := 0, dExif := 0, dPartner := 1 }
                  else
                    { row := ⟨mediaPath, some scPath, "COMPLETED"⟩
                      ops := move_pair o e.relDir e.name (some sc) true true
                      calls := calls2, dOk := 1, dFail := 0, dWarn := 0
                      dNoJson := 0, dBadJson := 0, dExif := 0, dPartner := 0 }

/-- Accumulated state of a merge run: the report rows, the filesystem
    effect log, the subprocess log, the `(completed, failed, warned)`
    counters and the failure taxonomy (`self.failure_reasons`). -/
structure MergeState where
  rows : List Row
  ops : List FsOp
  calls : List (List String)
  ok : Nat
  fail : Nat
  warn : Nat
  no_json : Nat
  bad_json : Nat
  exiftool_error : Nat
  partner_error : Nat

/-- Fold one entry's contribution into the state. -/
def mergeStep (s : MergeState) (r : EntryResult) : MergeState :=
  { rows := s.rows ++ [r.row]
    ops := s.ops ++ r.ops
    calls := s.calls ++ r.calls
    ok := s.ok + r.dOk
    fail := s.fail + r.dFail
    warn := s.warn + r.dWarn
    no_json := s.no_json + r.dNoJson
    bad_json := s.bad_json + r.dBadJson
    exiftool_error := s.exiftool_error + r.dExif
    partner_error := s.partner_error + r.dPartner }

/-- The merge loop: `stop idx` is the value of the stop flag read at the
    top-of-loop checkpoint before processing the entry at position `idx`
    (0-based); a true read breaks out of the loop. -/
def mergeLoop (o : Orch) (stop : Nat → Bool) :
    List MergeEntry → Nat → MergeState → MergeState
  | [], _, s => s
  | e :: rest, idx, s =>
      if stop idx then s
      else mergeLoop o stop rest (idx + 1) (mergeStep s (process_entry o e))

/-- Model of `stage_merge`: destination directories are ensured first, then —
    unless in dry-run mode — the exiftool executable must be resolvable
    (otherwise the raised `RuntimeError` becomes a fatal error, modelled as
    `.error`), then the thumbnail cache directory is ensured and the loop
    runs.  Thumbnail-file writes (confined to the logs tree) are not
    modelled. -/
def stage_merge (o : Orch) (plan : List MergeEntry) (stop : Nat → Bool) :
    Except String MergeState :=
  let s0 : MergeState :=
    { rows := [], calls := []
      ops := [FsOp.mkdir o.source, FsOp.mkdir o.completed, FsOp.mkdir o.failed,
              FsOp.mkdir o.logs]
      ok := 0, fail := 0, warn := 0
      no_json := 0, bad_json := 0, exiftool_error := 0, partner_error := 0 }
  if !o.dry_run && !o.exiftoolFound then
    Except.error "ExifTool not found on PATH. Set a valid exiftool path."
  else
    Except.ok (mergeLoop o stop plan 0
      { s0 with ops := s0.ops ++ [FsOp.mkdir (o.logs ++ ["thumbcache"])] })

/-! ## Derived notions used by the statements -/

/-- The timestamp read off the chosen block: `int(pt["timestamp"])` if the
    block is a dict containing `"timestamp"`, else `None`. -/
def tsOfChosen : Option Json → Option Int
  | some (.obj pt) => (jlookup pt "timestamp").bind pyInt
  | _ => none

/-- Argument classifiers for the three date fields, the two description-like
    fields, the GPS fields and the keyword (subject) fields. -/
def isDateArg (a : String) : Bool :=
  pyStartsWith a "-DateTimeOriginal=" || pyStartsWith a "-CreateDate=" ||
    pyStartsWith a "-ModifyDate="

def isDescArg (a : String) : Bool :=
  pyStartsWith a "-XMP:Description=" || pyStartsWith a "-IPTC:Caption-Abstract="

def isGpsArg (a : String) : Bool :=
  pyStartsWith a "-GPSLatitude=" || pyStartsWith a "-GPSLongitude=" ||
    pyStartsWith a "-GPSAltitude="

def isKwArg (a : String) : Bool := pyStartsWith a "-XMP:Subject"

/-- Every move among the effects lands under the given destination root. -/
def movesUnder (root : FsPath) (ops : List FsOp) : Prop :=
  ∀ src dst : FsPath, FsOp.move src dst ∈ ops → root <+: dst

/-- The source-tree paths a plan entry may move: its media file and, when
    resolved, its sidecar. -/
def entrySources (o : Orch) (e : MergeEntry) : List FsPath :=
  (o.source ++ e.relDir ++ [e.name]) ::
    (match e.sidecar with
     | some sc => [o.source ++ e.relDir ++ [sc]]
     | none => [])

/-! ## Concrete fixtures for the counterexamples and witnesses -/

/-- Fields with nothing set (a parse result of an empty sidecar object). -/
def emptyFields : GoogleFields :=
  { taken_timestamp := none, description := none, latitude := none
    longitude := none, altitude := none, keywords := [] }

/-- An orchestrator configuration for a live (non-dry) run. -/
def liveOrch : Orch :=
  { source := ["src"], completed := ["done"], failed := ["bad"], logs := ["logs"]
    preserve := false, overwrite := false, dry_run := false
    exiftool := "exiftool", exiftoolFound := true }

/-- A plan entry whose resolved sidecar no longer exists at processing time
    (for instance because an earlier entry sharing the sidecar moved it). -/
def danglingEntry : MergeEntry :=
  { relDir := [], name := "a.jpg", sidecar := some "a.jpg.json"
    sidecarExists := false, parsed := some emptyFields, rc := 0
    partner := none, rc2 := 0 }

/-- Sidecar document whose `photoTakenTime` block is truthy but lacks a
    `timestamp`, while `creationTime.timestamp` is present and valid. -/
def c4Doc : List (String × Json) :=
  [("photoTakenTime", Json.obj [("formatted", Json.str "x")]),
   ("creationTime", Json.obj [("timestamp", Json.str "123")])]

/-- Fields whose timestamp is the epoch (zero, hence falsy in Python), whose
    description is the empty string (falsy), with GPS set and one keyword. -/
def c3Fields : GoogleFields :=
  { taken_timestamp := some 0, description := some (Json.str "")
    latitude := some (Json.int 1), longitude := some (Json.int 2)
    altitude := some (Json.int 3), keywords := ["Alice"] }

/-! ## General lemmas -/

lemma dest_json_path_getLast (preserve : Bool) (destRoot relDir : FsPath) (name : String) :
    (dest_json_path preserve destRoot relDir name).getLast? = some (name ++ ".json") := by
  unfold dest_json_path
  split <;> simp

/-! ## C9: sidecars are stored at the destination as `media name + ".json"` -/

/-- C9: whenever an entry with a sidecar is moved (to either tree), the
    sidecar is moved to a destination whose final component is
    `media filename ++ ".json"`, regardless of the sidecar's own name. -/
theorem c9_sidecar_renamed_on_move (o : Orch) (relDir : FsPath) (name sc : String)
    (ok : Bool) (hdry : o.dry_run = false) :
    FsOp.move (o.source ++ relDir ++ [sc])
        (dest_json_path o.preserve (if ok then o.completed else o.failed) relDir name)
      ∈ move_pair o relDir name (some sc) true ok ∧
    (dest_json_path o.preserve (if ok then o.completed else o.failed) relDir name).getLast?
      = some (name ++ ".json") := by
  refine ⟨?_, dest_json_path_getLast _ _ _ _⟩
  unfold move_pair
  simp [hdry]

/-- Witness for C9 at a concrete input: a prefix-matched sidecar
    `photo.jpg(1).json` arrives as `photo.jpg.json`. -/
theorem c9_sidecar_renamed_on_move_witness :
    liveOrch.dry_run = false ∧
    (FsOp.move (liveOrch.source ++ [] ++ ["photo.jpg(1).json"])
        (dest_json_path liveOrch.preserve
          (if true then liveOrch.completed else liveOrch.failed) [] "photo.jpg")
      ∈ move_pair liveOrch [] "photo.jpg" (some "photo.jpg(1).json") true true ∧
    (dest_json_path liveOrch.preserve
        (if true then liveOrch.completed else liveOrch.failed) [] "photo.jpg").getLast?
      = some ("photo.jpg" ++ ".json")) :=
  ⟨rfl, c9_sidecar_renamed_on_move liveOrch [] "photo.jpg" "photo.jpg(1).json" true rfl⟩

/-! ## C10: dry-run still creates the destination media directory -/

/-- C10: in preview/dry-run mode, `move_pair` still performs the
    directory-creation call for the media destination (it precedes the
    dry-run guard) and performs no move. -/
theorem c10_dry_run_creates_dest_dir (o : Orch) (relDir : FsPath) (name : String)
    (sidecar : Option String) (scEx ok : Bool) (hdry : o.dry_run = true) :
    move_pair o relDir name sidecar scEx ok
      = [FsOp.mkdir ((dest_media_path o.preserve
          (if ok then o.completed else o.failed) relDir name).dropLast)] ∧
    ∀ op ∈ move_pair o relDir name sidecar scEx ok, op.isMove = false := by
  have h : move_pair o relDir name sidecar scEx ok
      = [FsOp.mkdir ((dest_media_path o.preserve
          (if ok then o.completed else o.failed) relDir name).dropLast)] := by
    unfold move_pair
    simp [hdry]
  refine ⟨h, ?_⟩
  rw [h]
  intro op hop
  simp at hop
  subst hop
  rfl

/-- Witness for C10 at a concrete input. -/
theorem c10_dry_run_creates_dest_dir_witness :
    ({ liveOrch with dry_run := true } : Orch).dry_run = true ∧
    (move_pair { liveOrch with dry_run := true } ["d"] "a.jpg" (some "a.jpg.json") true false
      = [FsOp.mkdir ((dest_media_path ({ liveOrch with dry_run := true } : Orch).preserve
          (if false then ({ liveOrch with dry_run := true } : Orch).completed
           else ({ liveOrch with dry_run := true } : Orch).failed) ["d"] "a.jpg").dropLast)] ∧
    ∀ op ∈ move_pair { liveOrch with dry_run := true } ["d"] "a.jpg" (some "a.jpg.json") true false,
      op.isMove = false) :=
  ⟨rfl, c10_dry_run_creates_dest_dir { liveOrch with dry_run := true } ["d"] "a.jpg"
    (some "a.jpg.json") true false rfl⟩

lemma mergeLoop_stopAt (o : Orch) (N : Nat) :
    ∀ (plan : List MergeEntry) (idx : Nat) (s : MergeState),
    mergeLoop o (fun i => decide (N ≤ i)) plan idx s
      = (plan.take (N - idx)).foldl (fun s e => mergeStep s (process_entry o e)) s := by
  intro plan
  induction plan with
  | nil => intro idx s; simp [mergeLoop]
  | cons e rest ih =>
      intro idx s
      by_cases h : N ≤ idx
      · have : N - idx = 0 := Nat.sub_eq_zero_of_le h
        simp [mergeLoop, h, this]
      · have hlt : idx < N := Nat.lt_of_not_le h
        have hsub : N - idx = (N - (idx + 1)) + 1 := by omega
        simp only [mergeLoop, h, decide_False]
        rw [ih (idx + 1) (mergeStep s (process_entry o e)), hsub]
        simp [List.take_succ_cons]

lemma mergeLoop_never (o : Orch) :
    ∀ (plan : List MergeEntry) (idx : Nat) (s : MergeState),
    mergeLoop o (fun _ => false) plan idx s
      = plan.foldl (fun s e => mergeStep s (process_entry o e)) s := by
  intro plan
  induction plan with
  | nil => intro idx s; simp [mergeLoop]
  | cons e rest ih => intro idx s; simp [mergeLoop, ih]

lemma mergeFold_rows (o : Orch) :
    ∀ (l : List MergeEntry) (s : MergeState),
    (l.foldl (fun s e => mergeStep s (process_entry o e)) s).rows
      = s.rows ++ l.map (fun e => (process_entry o e).row) := by
  intro l
  induction l with
  | nil => intro s; simp
  | cons e rest ih =>
      intro s
      rw [List.foldl_cons, ih]
      simp [mergeStep]

lemma mergeFold_ops (o : Orch) :
    ∀ (l : List MergeEntry) (s : MergeState),
    (l.foldl (fun s e => mergeStep s (process_entry o e)) s).ops
      = s.ops ++ (l.map (fun e => (process_entry o e).ops)).flatten := by
  intro l
  induction l with
  | nil => intro s; simp
  | cons e rest ih =>
      intro s
      rw [List.foldl_cons, ih]
      simp [mergeStep]

lemma mergeFold_calls (o : Orch) :
    ∀ (l : List MergeEntry) (s : MergeState),
    (l.foldl (fun s e => mergeStep s (process_entry o e)) s).calls
      = s.calls ++ (l.map (fun e => (process_entry o e).calls)).flatten := by
  intro l
  induction l with
  | nil => intro s; simp
  | cons e rest ih =>
      intro s
      rw [List.foldl_cons, ih]
      simp [mergeStep]

lemma mergeFold_noJson (o : Orch) :
    ∀ (l : List MergeEntry) (s : MergeState),
    (l.foldl (fun s e => mergeStep s (process_entry o e)) s).no_json
      = s.no_json + (l.map (fun e => (process_entry o e).dNoJson)).sum := by
  intro l
  induction l with
  | nil => intro s; simp
  | cons e rest ih =>
      intro s
      rw [List.foldl_cons, ih]
      simp [mergeStep]
      omega

lemma move_pair_move_src (o : Orch) (relDir : FsPath) (name : String)
    (scO : Option String) (scEx ok : Bool) (src dst : FsPath)
    (h : FsOp.move src dst ∈ move_pair o relDir name scO scEx ok) :
    src = o.source ++ (relDir ++ [name]) ∨
      ∃ sc, scO = some sc ∧ src = o.source ++ (relDir ++ [sc]) := by
  unfold move_pair at h
  by_cases hdry : o.dry_run
  · simp [hdry] at h
  · cases scO with
    | none =>
        simp [hdry] at h
        exact Or.inl h.1
    | some sc =>
        by_cases hex : scEx
        · simp [hdry, hex] at h
          rcases h with h | h
          · exact Or.inl h.1
          · exact Or.inr ⟨sc, rfl, h.1⟩
        · simp [hdry, hex] at h
          exact Or.inl h.1

lemma process_entry_ops_shape (o : Orch) (e : MergeEntry) :
    ∃ scO scEx ok, (scO = none ∨ scO = e.sidecar) ∧
      (process_entry o e).ops = move_pair o e.relDir e.name scO scEx ok := by
  unfold process_entry
  cases hsc : e.sidecar with
  | none => exact ⟨none, false, false, Or.inl rfl, rfl⟩
  | some sc =>
      by_cases hex : e.sidecarExists
      · simp only [hex, Bool.not_true, Bool.false_eq_true, if_false]
        cases hp : e.parsed with
        | none => exact ⟨some sc, true, false, Or.inr rfl, rfl⟩
        | some flds =>
            by_cases hrc : (if o.dry_run then 0 else e.rc) != 0
            · simp only [hrc, if_true]
              exact ⟨some sc, true, false, Or.inr rfl, rfl⟩
            · simp only [hrc, if_false]
              cases hpn : e.partner with
              | none => exact ⟨some sc, true, true, Or.inr rfl, rfl⟩
              | some pn =>
                  by_cases hrc2 : (if o.dry_run then 0 else e.rc2) != 0
                  · simp only [hrc2, if_true]
                    exact ⟨some sc, true, true, Or.inr rfl, rfl⟩
                  · simp only [hrc2, if_false]
                    exact ⟨some sc, true, true, Or.inr rfl, rfl⟩
      · simp only [hex, Bool.not_false, if_true]
        exact ⟨none, false, false, Or.inl rfl, rfl⟩

lemma process_entry_move_src (o : Orch) (e : MergeEntry) (src dst : FsPath)
    (h : FsOp.move src dst ∈ (process_entry o e).ops) : src ∈ entrySources o e := by
  obtain ⟨scO, scEx, ok, hsh, heq⟩ := process_entry_ops_shape o e
  rw [heq] at h
  rcases move_pair_move_src o e.relDir e.name scO scEx ok src dst h with h1 | ⟨sc, hsc, h2⟩
  · subst h1
    simp [entrySources]
  · rcases hsh with h3 | h3
    · rw [h3] at hsc
      cases hsc
    · have hes : e.sidecar = some sc := by
        rw [← h3, hsc]
      subst h2
      simp [entrySources, hes]

/-! ## C7: stop observed mid-merge -/

/-- C7: if the stop flag is observed once N of the M plan entries have been
    processed, the report holds exactly N rows, every move's source belongs
    to one of the first N entries, and the run ends in the finished state
    (no fatal error is raised, given the stage's tool check passes —
    dry-run, or the tool resolvable). -/
theorem c7_stop_mid_merge (o : Orch) (plan : List MergeEntry) (N : Nat)
    (hN : N ≤ plan.length) (hrun : o.dry_run = true ∨ o.exiftoolFound = true) :
    ∃ s : MergeState,
      stage_merge o plan (fun i => decide (N ≤ i)) = Except.ok s ∧
      s.rows.length = N ∧
      (∀ src dst : FsPath, FsOp.move src dst ∈ s.ops →
        ∃ e ∈ plan.take N, src ∈ entrySources o e) := by
  unfold stage_merge
  have hguard : (!o.dry_run && !o.exiftoolFound) = false := by
    rcases hrun with h | h <;> simp [h]
  simp only [hguard, Bool.false_eq_true, if_false]
  refine ⟨_, rfl, ?_, ?_⟩
  · rw [mergeLoop_stopAt, mergeFold_rows]
    simpa using Nat.min_eq_left hN
  · intro src dst hmem
    rw [mergeLoop_stopAt, mergeFold_ops] at hmem
    simp only [Nat.sub_zero] at hmem ⊢
    rcases List.mem_append.mp hmem with h0 | h1
    · simp at h0
    · rcases List.mem_flatten.mp h1 with ⟨l1, hl1, hop⟩
      rcases List.mem_map.mp hl1 with ⟨e, he, rfl⟩
      exact ⟨e, he, process_entry_move_src o e src dst hop⟩

/-- Witness for C7: a two-entry plan stopped after one entry. -/
theorem c7_stop_mid_merge_witness :
    1 ≤ ([danglingEntry, danglingEntry] : List MergeEntry).length ∧
    (liveOrch.dry_run = true ∨ liveOrch.exiftoolFound = true) ∧
    (∃ s : MergeState,
      stage_merge liveOrch [danglingEntry, danglingEntry] (fun i => decide (1 ≤ i))
        = Except.ok s ∧
      s.rows.length = 1 ∧
      (∀ src dst : FsPath, FsOp.move src dst ∈ s.ops →
        ∃ e ∈ ([danglingEntry, danglingEntry] : List MergeEntry).take 1,
          src ∈ entrySources liveOrch e)) :=
  ⟨by simp, Or.inr rfl,
    c7_stop_mid_merge liveOrch [danglingEntry, danglingEntry] 1 (by simp) (Or.inr rfl)⟩

lemma move_pair_dry (o : Orch) (relDir : FsPath) (name : String)
    (scO : Option String) (scEx ok : Bool) (hdry : o.dry_run = true) :
    move_pair o relDir name scO scEx ok
      = [FsOp.mkdir ((dest_media_path o.preserve
          (if ok then o.completed else o.failed) relDir name).dropLast)] := by
  unfold move_pair
  simp [hdry]

lemma process_entry_dry_status (o : Orch) (e : MergeEntry) (hdry : o.dry_run = true) :
    (process_entry o e).row.status
      = (if e.sidecar.isNone || !e.sidecarExists then "FAILED"
         else if e.parsed.isNone then "FAILED" else "COMPLETED") := by
  unfold process_entry
  cases hsc : e.sidecar with
  | none => simp
  | some sc =>
      by_cases hex : e.sidecarExists
      · simp only [hex, Bool.not_true, Bool.false_eq_true, if_false, Option.isNone_some,
          Bool.or_false]
        cases hp : e.parsed with
        | none => simp
        | some flds =>
            simp only [hdry, if_true, Option.isNone_some]
            cases hpn : e.partner <;> simp
      · simp [hex]

lemma process_entry_dry_calls (o : Orch) (e : MergeEntry) (hdry : o.dry_run = true) :
    (process_entry o e).calls = [] := by
  unfold process_entry
  cases hsc : e.sidecar with
  | none => simp
  | some sc =>
      by_cases hex : e.sidecarExists
      · simp only [hex, Bool.not_true, Bool.false_eq_true, if_false]
        cases hp : e.parsed with
        | none => simp
        | some flds =>
            simp only [hdry, if_true]
            cases hpn : e.partner <;> simp
      · simp [hex]

lemma process_entry_dry_no_moves (o : Orch) (e : MergeEntry) (hdry : o.dry_run = true) :
    ∀ op ∈ (process_entry o e).ops, op.isMove = false := by
  obtain ⟨scO, scEx, ok, _, heq⟩ := process_entry_ops_shape o e
  rw [heq, move_pair_dry o _ _ _ _ _ hdry]
  intro op hop
  simp at hop
  subst hop
  rfl

/-! ## C8: preview (dry-run) mode -/

/-- C8: in dry-run mode, over any plan, the run finishes with no subprocess
    invocation and no file move, while the report still holds one row per
    plan entry, classified as the moves-and-invocations run would have been
    with every invocation reporting success (FAILED exactly for a missing or
    unparseable sidecar, COMPLETED otherwise — never a tool failure or a
    partner warning). -/
theorem c8_dry_run_no_effects (o : Orch) (plan : List MergeEntry)
    (hdry : o.dry_run = true) :
    ∃ s : MergeState,
      stage_merge o plan (fun _ => false) = Except.ok s ∧
      s.rows.length = plan.length ∧
      s.calls = [] ∧
      (∀ op ∈ s.ops, op.isMove = false) ∧
      s.rows = plan.map (fun e => (process_entry o e).row) ∧
      (∀ e ∈ plan, (process_entry o e).row.status
        = (if e.sidecar.isNone || !e.sidecarExists then "FAILED"
           else if e.parsed.isNone then "FAILED" else "COMPLETED")) := by
  unfold stage_merge
  simp only [hdry, Bool.not_true, Bool.false_and, Bool.false_eq_true, if_false]
  rw [mergeLoop_never]
  refine ⟨_, rfl, ?_, ?_, ?_, ?_, ?_⟩
  · rw [mergeFold_rows]
    simp
  · rw [mergeFold_calls]
    simp only [List.nil_append]
    rw [List.flatten_eq_nil_iff]
    intro l hl
    rcases List.mem_map.mp hl with ⟨e, _, rfl⟩
    exact process_entry_dry_calls o e hdry
  · intro op hop
    rw [mergeFold_ops] at hop
    rcases List.mem_append.mp hop with h0 | h1
    · simp at h0
      rcases h0 with h | h | h | h | h <;> (subst h; rfl)
    · rcases List.mem_flatten.mp h1 with ⟨l1, hl1, hop1⟩
      rcases List.mem_map.mp hl1 with ⟨e, _, rfl⟩
      exact process_entry_dry_no_moves o e hdry op hop1
  · rw [mergeFold_rows]
    simp
  · intro e _
    exact process_entry_dry_status o e hdry

/-- Witness for C8 at a concrete dry-run configuration and plan. -/
theorem c8_dry_run_no_effects_witness :
    ({ liveOrch with dry_run := true } : Orch).dry_run = true ∧
    (∃ s : MergeState,
      stage_merge { liveOrch with dry_run := true } [danglingEntry] (fun _ => false)
        = Except.ok s ∧
      s.rows.length = ([danglingEntry] : List MergeEntry).length ∧
      s.calls = [] ∧
      (∀ op ∈ s.ops, op.isMove = false) ∧
      s.rows = ([danglingEntry] : List MergeEntry).map
        (fun e => (process_entry { liveOrch with dry_run := true } e).row) ∧
      (∀ e ∈ ([danglingEntry] : List MergeEntry),
        (process_entry { liveOrch with dry_run := true } e).row.status
          = (if e.sidecar.isNone || !e.sidecarExists then "FAILED"
             else if e.parsed.isNone then "FAILED" else "COMPLETED"))) :=
  ⟨rfl, c8_dry_run_no_effects { liveOrch with dry_run := true } [danglingEntry] rfl⟩

lemma move_pair_move_dst (o : Orch) (relDir : FsPath) (name : String)
    (scO : Option String) (scEx ok : Bool) (src dst : FsPath)
    (h : FsOp.move src dst ∈ move_pair o relDir name scO scEx ok) :
    (if ok then o.completed else o.failed) <+: dst := by
  unfold move_pair at h
  by_cases hdry : o.dry_run
  · simp [hdry] at h
  · simp only [hdry, if_false, List.singleton_append, List.mem_cons] at h
    rcases h with h | h
    · cases h
    · have hdm : dst = dest_media_path o.preserve
          (if ok then o.completed else o.failed) relDir name ∨
        dst = dest_json_path o.preserve
          (if ok then o.completed else o.failed) relDir name := by
        cases scO with
        | none => simp at h; exact Or.inl h.2
        | some sc =>
            by_cases hex : scEx
            · simp [hex] at h
              rcases h with h | h
              · exact Or.inl h.2
              · exact Or.inr h.2
            · simp [hex] at h
              exact Or.inl h.2
      rcases hdm with h2 | h2 <;> subst h2 <;>
        simp only [dest_media_path, dest_json_path] <;>
        split_ifs <;> simp [List.append_assoc]

lemma process_entry_moves_under (o : Orch) (e : MergeEntry) (ok : Bool)
    (scO : Option String) (scEx : Bool)
    (heq : (process_entry o e).ops = move_pair o e.relDir e.name scO scEx ok) :
    movesUnder (if ok then o.completed else o.failed) (process_entry o e).ops := by
  intro src dst hmem
  rw [heq] at hmem
  exact move_pair_move_dst o e.relDir e.name scO scEx ok src dst hmem

lemma process_entry_noJson_case (o : Orch) (e : MergeEntry)
    (h : e.sidecar = none ∨ e.sidecarExists = false) :
    (process_entry o e).row.status = "FAILED" ∧ (process_entry o e).dNoJson = 1 ∧
      (process_entry o e).ops = move_pair o e.relDir e.name none false false := by
  unfold process_entry
  rcases h with h | h
  · rw [h]
    exact ⟨rfl, rfl, rfl⟩
  · cases hsc : e.sidecar with
    | none => exact ⟨rfl, rfl, rfl⟩
    | some sc => simp [h]

lemma process_entry_badJson_case (o : Orch) (e : MergeEntry) (sc : String)
    (hsc : e.sidecar = some sc) (hex : e.sidecarExists = true)
    (hp : e.parsed = none) :
    (process_entry o e).row.status = "FAILED" ∧ (process_entry o e).dBadJson = 1 ∧
      (process_entry o e).ops = move_pair o e.relDir e.name (some sc) true false := by
  unfold process_entry
  rw [hsc]
  simp only [hex, Bool.not_true, Bool.false_eq_true, if_false]
  rw [hp]
  exact ⟨rfl, rfl, rfl⟩

lemma process_entry_toolErr_case (o : Orch) (e : MergeEntry) (sc : String)
    (flds : GoogleFields) (hdry : o.dry_run = false) (hsc : e.sidecar = some sc)
    (hex : e.sidecarExists = true) (hp : e.parsed = some flds) (hrc : e.rc ≠ 0) :
    (process_entry o e).row.status = "FAILED" ∧ (process_entry o e).dExif = 1 ∧
      (process_entry o e).ops = move_pair o e.relDir e.name (some sc) true false := by
  unfold process_entry
  rw [hsc]
  simp only [hex, Bool.not_true, Bool.false_eq_true, if_false]
  rw [hp]
  simp only [hdry, Bool.false_eq_true, if_false, bne_iff_ne, ne_eq, hrc,
    not_false_eq_true, if_true]
  simp

lemma process_entry_good_case (o : Orch) (e : MergeEntry) (sc : String)
    (flds : GoogleFields) (hdry : o.dry_run = false) (hsc : e.sidecar = some sc)
    (hex : e.sidecarExists = true) (hp : e.parsed = some flds) (hrc : e.rc = 0) :
    ((process_entry o e).row.status = "COMPLETED" ∨
     (process_entry o e).row.status = "COMPLETED_WITH_PARTNER_WARN") ∧
    (process_entry o e).dOk = 1 ∧
    (process_entry o e).ops = move_pair o e.relDir e.name (some sc) true true ∧
    ((process_entry o e).dWarn = 1 ↔ (e.partner.isSome ∧ e.rc2 ≠ 0)) := by
  unfold process_entry
  rw [hsc]
  simp only [hex, Bool.not_true, Bool.false_eq_true, if_false]
  rw [hp]
  simp only [hdry, Bool.false_eq_true, if_false, hrc, bne_self_eq_false]
  cases hpn : e.partner with
  | none => simp
  | some pn =>
      by_cases hrc2 : e.rc2 = 0
      · simp [hrc2]
      · simp [hrc2]

lemma process_entry_dNoJson (o : Orch) (e : MergeEntry) :
    (process_entry o e).dNoJson
      = if (e.sidecar.isNone || !e.sidecarExists) then 1 else 0 := by
  unfold process_entry
  cases hsc : e.sidecar with
  | none => simp
  | some sc =>
      by_cases hex : e.sidecarExists
      · simp only [hex, Bool.not_true, Bool.false_eq_true, if_false,
          Option.isNone_some, Bool.or_false]
        cases hp : e.parsed with
        | none => simp
        | some flds =>
            by_cases hrc : (if o.dry_run then 0 else e.rc) != 0
            · simp [hrc]
            · simp only [hrc, if_false]
              cases hpn : e.partner with
              | none => simp
              | some pn =>
                  by_cases hrc2 : (if o.dry_run then 0 else e.rc2) != 0 <;>
                    simp [hrc2]
      · simp [hex]

lemma sum_map_ite_eq_countP (p : MergeEntry → Bool) :
    ∀ l : List MergeEntry,
    (l.map (fun e => if p e then 1 else 0)).sum = l.countP p := by
  intro l
  induction l with
  | nil => simp
  | cons e rest ih =>
      by_cases h : p e <;> simp [List.countP_cons, h, ih] <;> omega

/-! ## C1: Stage-2 routing and the no_sidecar bucket -/

/-- Counterexample to C1 as stated: a plan entry with a resolved sidecar
    (`sidecar` is not none) whose sidecar file no longer exists at processing
    time, whose parse would succeed and whose tool invocation would exit
    zero.  The claim says every such entry routes to the completed
    destination and that the no_sidecar bucket counts exactly the entries
    with sidecar = none; the code routes it to the failed tree, increments
    `no_json`, and moves the media under the failed root. -/
theorem c1_counterexample :
    danglingEntry.sidecar.isSome = true ∧
    danglingEntry.parsed.isSome = true ∧
    danglingEntry.rc = 0 ∧
    (stage_merge liveOrch [danglingEntry] (fun _ => false)).toOption.map
        (fun s => (s.rows.map Row.status, s.no_json, s.ok, s.fail,
          s.ops.contains (FsOp.move ["src", "a.jpg"] ["bad", "a.jpg"])))
      = some (["FAILED"], 1, 0, 1, true) ∧
    ([danglingEntry] : List MergeEntry).countP (fun e => e.sidecar.isNone) = 0 :=
  ⟨rfl, rfl, rfl, rfl, rfl⟩

/-- C1 (amended): in a live (non-dry) Stage-2 run, an entry whose sidecar is
    none, or whose sidecar file no longer exists when the entry is
    processed, is routed to the failed destination and counted in the
    no_sidecar bucket; an entry whose sidecar parse fails, or whose tool
    invocation exits non-zero, is routed to the failed destination; every
    other entry is routed to the completed destination even when the
    live-partner invocation fails, partner failure only incrementing the
    warning count; and after a full run the no_sidecar bucket equals the
    number of entries whose sidecar was none or missing at processing
    time. -/
theorem c1_stage2_routing (o : Orch) (hdry : o.dry_run = false) :
    (∀ e : MergeEntry, (e.sidecar = none ∨ e.sidecarExists = false) →
       (process_entry o e).row.status = "FAILED" ∧
       (process_entry o e).dNoJson = 1 ∧
       movesUnder o.failed (process_entry o e).ops) ∧
    (∀ e : MergeEntry, ∀ sc, e.sidecar = some sc → e.sidecarExists = true →
       e.parsed = none →
       (process_entry o e).row.status = "FAILED" ∧
       (process_entry o e).dBadJson = 1 ∧
       movesUnder o.failed (process_entry o e).ops) ∧
    (∀ e : MergeEntry, ∀ sc flds, e.sidecar = some sc → e.sidecarExists = true →
       e.parsed = some flds → e.rc ≠ 0 →
       (process_entry o e).row.status = "FAILED" ∧
       (process_entry o e).dExif = 1 ∧
       movesUnder o.failed (process_entry o e).ops) ∧
    (∀ e : MergeEntry, ∀ sc flds, e.sidecar = some sc → e.sidecarExists = true →
       e.parsed = some flds → e.rc = 0 →
       ((process_entry o e).row.status = "COMPLETED" ∨
        (process_entry o e).row.status = "COMPLETED_WITH_PARTNER_WARN") ∧
       (process_entry o e).dOk = 1 ∧
       movesUnder o.completed (process_entry o e).ops ∧
       ((process_entry o e).dWarn = 1 ↔ (e.partner.isSome ∧ e.rc2 ≠ 0))) ∧
    (∀ (plan : List MergeEntry) (s : MergeState), o.exiftoolFound = true →
       stage_merge o plan (fun _ => false) = Except.ok s →
       s.no_json = plan.countP (fun e => e.sidecar.isNone || !e.sidecarExists)) := by
  refine ⟨?_, ?_, ?_, ?_, ?_⟩
  · intro e he
    obtain ⟨h1, h2, h3⟩ := process_entry_noJson_case o e he
    refine ⟨h1, h2, ?_⟩
    simpa using process_entry_moves_under o e false none false h3
  · intro e sc hsc hex hp
    obtain ⟨h1, h2, h3⟩ := process_entry_badJson_case o e sc hsc hex hp
    refine ⟨h1, h2, ?_⟩
    simpa using process_entry_moves_under o e false (some sc) true h3
  · intro e sc flds hsc hex hp hrc
    obtain ⟨h1, h2, h3⟩ := process_entry_toolErr_case o e sc flds hdry hsc hex hp hrc
    refine ⟨h1, h2, ?_⟩
    simpa using process_entry_moves_under o e false (some sc) true h3
  · intro e sc flds hsc hex hp hrc
    obtain ⟨h1, h2, h3, h4⟩ := process_entry_good_case o e sc flds hdry hsc hex hp hrc
    refine ⟨h1, h2, ?_, h4⟩
    simpa using process_entry_moves_under o e true (some sc) true h3
  · intro plan s hfound hs
    unfold stage_merge at hs
    simp only [hdry, hfound, Bool.not_false, Bool.not_true, Bool.and_false,
      Bool.false_eq_true, if_false] at hs
    rw [mergeLoop_never] at hs
    cases hs
    rw [mergeFold_noJson]
    simp only [Nat.zero_add]
    have hmap : (plan.map (fun e => (process_entry o e).dNoJson))
        = plan.map (fun e => if (e.sidecar.isNone || !e.sidecarExists) then 1 else 0) := by
      apply List.map_congr_left
      intro e _
      exact process_entry_dNoJson o e
    rw [hmap, sum_map_ite_eq_countP]

/-- Witness for C1 at concrete entries exercising each hypothesis group. -/
theorem c1_stage2_routing_witness :
    liveOrch.dry_run = false ∧
    (danglingEntry.sidecar = none ∨ danglingEntry.sidecarExists = false) ∧
    ((process_entry liveOrch danglingEntry).row.status = "FAILED" ∧
     (process_entry liveOrch danglingEntry).dNoJson = 1 ∧
     movesUnder liveOrch.failed (process_entry liveOrch danglingEntry).ops) ∧
    (∀ (plan : List MergeEntry) (s : MergeState), liveOrch.exiftoolFound = true →
       stage_merge liveOrch plan (fun _ => false) = Except.ok s →
       s.no_json = plan.countP (fun e => e.sidecar.isNone || !e.sidecarExists)) := by
  have h := c1_stage2_routing liveOrch rfl
  exact ⟨rfl, Or.inr rfl, h.1 danglingEntry (Or.inr rfl), h.2.2.2.2⟩

lemma image_not_video (n : String) :
    is_image_file n = true → is_video_file n = false := by
  unfold is_image_file is_video_file
  generalize pyLower (pySuffix n) = s
  intro h
  have hm : s ∈ IMAGE_EXTS := by simpa using h
  fin_cases hm <;> decide

lemma media_eq_image_or_video (n : String) :
    is_media_file n = (is_image_file n || is_video_file n) := by
  unfold is_media_file is_image_file is_video_file
  simp [MEDIA_EXTS]

lemma countP_media_split (files : List String) :
    files.countP (fun n => is_media_file n)
      = files.countP (fun n => is_image_file n)
        + files.countP (fun n => is_video_file n) := by
  induction files with
  | nil => simp
  | cons n rest ih =>
      rw [List.countP_cons, List.countP_cons, List.countP_cons, ih,
        media_eq_image_or_video n]
      by_cases hi : is_image_file n = true
      · have hv := image_not_video n hi
        simp [hi, hv]
        omega
      · simp only [Bool.not_eq_true] at hi
        by_cases hv : is_video_file n = true <;> simp [hi, hv] <;> omega

lemma pySuffix_cases (n : String) :
    pySuffix n = "" ∨ ∃ i, pySuffix n = ⟨n.data.drop i⟩ := by
  unfold pySuffix
  cases rfindIdx '.' n.data with
  | none => exact Or.inl rfl
  | some i =>
      by_cases hc : 0 < i ∧ i < n.data.length - 1
      · exact Or.inr ⟨i, if_pos hc⟩
      · exact Or.inl (if_neg hc)

lemma is_media_file_imp_name (n : String) :
    is_media_file n = true → is_media_name n = true := by
  intro h
  unfold is_media_file at h
  rcases pySuffix_cases n with hs | ⟨i, hs⟩
  · rw [hs] at h
    exact absurd h (by decide)
  · rw [hs] at h
    unfold is_media_name
    rw [List.any_eq_true]
    refine ⟨pyLower ⟨n.data.drop i⟩, by simpa using h, ?_⟩
    unfold pyEndsWith pyLower
    rw [decide_eq_true_eq]
    show (List.map Char.toLower (n.data.drop i)) <:+ (n.data.map Char.toLower)
    rw [List.map_drop]
    exact List.drop_suffix i (n.data.map Char.toLower)

lemma sum_map_add (f g : FsDir → Nat) (l : List FsDir) :
    (l.map (fun d => f d + g d)).sum = (l.map f).sum + (l.map g).sum := by
  induction l with
  | nil => simp
  | cons d rest ih =>
      simp only [List.map_cons, List.sum_cons, ih]
      omega

lemma plan_of_length (dirs : List FsDir) :
    (plan_of dirs).length
      = (dirs.map (fun d => d.files.countP (fun n => is_media_file n))).sum := by
  unfold plan_of
  rw [List.length_flatten, List.map_map]
  congr 1
  apply List.map_congr_left
  intro d _
  simp [List.countP_eq_length_filter]

/-! ## C6: Stage-1 counters versus the plan -/

/-- Counterexample to C6 as stated: a snapshot holding one file named
    ".jpg".  The count pass (string endswith) counts it, but it has no
    pathlib suffix, so the mapping pass produces no plan entry and counts
    no image and no video: total = 1 while the plan is empty. -/
theorem c6_counterexample :
    (stage_plan [⟨[], [".jpg"]⟩]).1.total = 1 ∧
    (stage_plan [⟨[], [".jpg"]⟩]).2.length = 0 ∧
    (stage_plan [⟨[], [".jpg"]⟩]).1.images = 0 ∧
    (stage_plan [⟨[], [".jpg"]⟩]).1.videos = 0 :=
  ⟨rfl, rfl, rfl, rfl⟩

/-- C6 (amended): the number of plan entries always equals the summary's
    image count plus its video count; and it equals the count-pass total
    provided every file whose lowercased name merely ends in a media
    extension also has that extension as its pathlib suffix (names such as
    a bare ".jpg", counted by the endswith test but suffix-less for
    pathlib, are the only divergence). -/
theorem c6_total_media_plan_counts (dirs : List FsDir) :
    ((stage_plan dirs).2.length
      = (stage_plan dirs).1.images + (stage_plan dirs).1.videos) ∧
    ((∀ d ∈ dirs, ∀ n ∈ d.files, is_media_name n = true → is_media_file n = true) →
      (stage_plan dirs).1.total = (stage_plan dirs).2.length) := by
  unfold stage_plan
  by_cases h0 : total_media_count dirs = 0
  · simp [h0]
  · simp only [h0, if_false]
    constructor
    · show (plan_of dirs).length = stage1_images dirs + stage1_videos dirs
      rw [plan_of_length]
      unfold stage1_images stage1_videos
      rw [← sum_map_add]
      congr 1
      apply List.map_congr_left
      intro d _
      rw [List.countP_filter, List.countP_filter]
      calc d.files.countP (fun n => is_media_file n)
          = d.files.countP (fun n => is_image_file n)
            + d.files.countP (fun n => is_video_file n) := countP_media_split d.files
        _ = d.files.countP (fun n => is_image_file n && is_media_file n)
            + d.files.countP (fun n => is_video_file n && is_media_file n) := by
            congr 1 <;> apply List.countP_congr <;> intro n _ <;>
              rw [media_eq_image_or_video n] <;>
              cases hi : is_image_file n <;> cases hv : is_video_file n <;> simp
    · intro hpt
      show total_media_count dirs = (plan_of dirs).length
      rw [plan_of_length]
      unfold total_media_count
      congr 1
      apply List.map_congr_left
      intro d hd
      apply List.countP_congr
      intro n hn
      constructor
      · intro h
        exact hpt d hd n hn h
      · intro h
        exact is_media_file_imp_name n h

/-- Witness for C6 at a snapshot with one image, one video and a non-media
    file, where the two classifiers agree. -/
theorem c6_total_media_plan_counts_witness :
    (∀ d ∈ ([⟨[], ["a.jpg", "b.mp4", "x.txt"]⟩] : List FsDir), ∀ n ∈ d.files,
      is_media_name n = true → is_media_file n = true) ∧
    (stage_plan [⟨[], ["a.jpg", "b.mp4", "x.txt"]⟩]).1.total
      = (stage_plan [⟨[], ["a.jpg", "b.mp4", "x.txt"]⟩]).2.length ∧
    (stage_plan [⟨[], ["a.jpg", "b.mp4", "x.txt"]⟩]).2.length
      = (stage_plan [⟨[], ["a.jpg", "b.mp4", "x.txt"]⟩]).1.images
        + (stage_plan [⟨[], ["a.jpg", "b.mp4", "x.txt"]⟩]).1.videos := by
  have hpt : ∀ d ∈ ([⟨[], ["a.jpg", "b.mp4", "x.txt"]⟩] : List FsDir), ∀ n ∈ d.files,
      is_media_name n = true → is_media_file n = true := by decide
  have h := c6_total_media_plan_counts [⟨[], ["a.jpg", "b.mp4", "x.txt"]⟩]
  exact ⟨hpt, h.2 hpt, h.1⟩

/-! ## C5: geolocation extraction -/

/-- C5: geolocation prefers the `geoDataExif` block and falls back to
    `geoData`; a block is accepted only if both latitude and longitude are
    numeric and not both exactly zero; an accepted block passes altitude
    through only if numeric; and a sidecar whose only candidate geo block
    carries latitude 0 and longitude 0 extracts none for all three
    geolocation fields. -/
theorem c5_geo_rules (kvs : List (String × Json)) :
    (∀ t, pick_geo (jlookup kvs "geoDataExif") = some t → geo_of kvs = some t) ∧
    (pick_geo (jlookup kvs "geoDataExif") = none →
      geo_of kvs = pick_geo (jlookup kvs "geoData")) ∧
    (∀ g t, pick_geo (some g) = some t →
      ∃ gd la lo, g = Json.obj gd ∧ jlookup gd "latitude" = some la ∧
        jlookup gd "longitude" = some lo ∧ isNum la = true ∧ isNum lo = true ∧
        ¬(numVal la = 0 ∧ numVal lo = 0) ∧ t.1 = la ∧ t.2.1 = lo ∧
        t.2.2 = (jlookup gd "altitude").bind
          (fun al => if isNum al then some al else none)) ∧
    (∀ gd la lo, jlookup gd "latitude" = some la →
      jlookup gd "longitude" = some lo →
      isNum la = true → isNum lo = true → ¬(numVal la = 0 ∧ numVal lo = 0) →
      pick_geo (some (Json.obj gd)) = some (la, lo,
        (jlookup gd "altitude").bind
          (fun al => if isNum al then some al else none))) ∧
    (∀ gd la lo f, pick_geo (jlookup kvs "geoDataExif") = none →
      jlookup kvs "geoData" = some (Json.obj gd) →
      jlookup gd "latitude" = some la → jlookup gd "longitude" = some lo →
      numVal la = 0 → numVal lo = 0 →
      extract_google_fields (Json.obj kvs) = some f →
      f.latitude = none ∧ f.longitude = none ∧ f.altitude = none) := by
  have hreject : ∀ (gd : List (String × Json)) (la lo : Json),
      jlookup gd "latitude" = some la → jlookup gd "longitude" = some lo →
      numVal la = 0 → numVal lo = 0 →
      pick_geo (some (Json.obj gd)) = none := by
    intro gd la lo hla hlo hz1 hz2
    simp only [pick_geo]
    simp only [hla, hlo]
    have hcond : (isNum la && isNum lo && !(numVal la == 0 && numVal lo == 0))
        = false := by
      simp [hz1, hz2]
    rw [hcond]
    rfl
  refine ⟨?_, ?_, ?_, ?_, ?_⟩
  · intro t ht
    unfold geo_of
    rw [ht]
    rfl
  · intro h
    unfold geo_of
    rw [h]
    rfl
  · intro g t ht
    cases g with
    | obj gd =>
        simp only [pick_geo] at ht
        cases hla : jlookup gd "latitude" with
        | none =>
            simp only [hla] at ht
            exact Option.noConfusion ht
        | some la =>
            cases hlo : jlookup gd "longitude" with
            | none =>
                simp only [hla, hlo] at ht
                exact Option.noConfusion ht
            | some lo =>
                simp only [hla, hlo] at ht
                by_cases hcond :
                    (isNum la && isNum lo &&
                      !(numVal la == 0 && numVal lo == 0)) = true
                · rw [if_pos hcond] at ht
                  obtain ⟨h1, h2, h3⟩ :
                      isNum la = true ∧ isNum lo = true ∧
                        ¬(numVal la = 0 ∧ numVal lo = 0) := by
                    simp only [Bool.and_eq_true, Bool.not_eq_true',
                      Bool.and_eq_false_iff, beq_eq_false_iff_ne, ne_eq,
                      beq_iff_eq] at hcond
                    refine ⟨hcond.1.1, hcond.1.2, ?_⟩
                    rintro ⟨hz1, hz2⟩
                    rcases hcond.2 with h | h <;> exact h (by assumption)
                  cases ht
                  refine ⟨gd, la, lo, rfl, hla, hlo, h1, h2, h3, rfl, rfl, ?_⟩
                  cases halt : jlookup gd "altitude" <;> simp [halt]
                · rw [if_neg (by simpa using hcond)] at ht
                  cases ht
    | null => simp [pick_geo] at ht
    | bool b => simp [pick_geo] at ht
    | int n => simp [pick_geo] at ht
    | float q => simp [pick_geo] at ht
    | str s => simp [pick_geo] at ht
    | arr xs => simp [pick_geo] at ht
  · intro gd la lo hla hlo h1 h2 h3
    simp only [pick_geo]
    simp only [hla, hlo]
    have hcond : (isNum la && isNum lo && !(numVal la == 0 && numVal lo == 0))
        = true := by
      have hor : ¬(numVal la = 0) ∨ ¬(numVal lo = 0) := by
        by_cases hz1 : numVal la = 0
        · exact Or.inr (fun hz2 => h3 ⟨hz1, hz2⟩)
        · exact Or.inl hz1
      rcases hor with h | h <;> simp [h1, h2, h]
    rw [if_pos hcond]
    cases halt : jlookup gd "altitude" <;> simp [halt]
  · intro gd la lo f hnone hgd hla hlo hz1 hz2 hf
    have hgeo : geo_of kvs = none := by
      unfold geo_of
      rw [hnone, hgd]
      exact hreject gd la lo hla hlo hz1 hz2
    unfold extract_google_fields at hf
    rcases Option.map_eq_some'.mp hf with ⟨ks, hks, hfe⟩
    subst hfe
    simp [hgeo]

/-- Witness for C5: a sidecar whose only geo block is the zero/zero sentinel
    (with a numeric altitude) extracts no geolocation, and a nonzero block is
    accepted with its altitude filter. -/
theorem c5_geo_rules_witness :
    extract_google_fields (Json.obj [("geoData", Json.obj
        [("latitude", Json.int 0), ("longitude", Json.int 0),
         ("altitude", Json.int 7)])]) = some emptyFields ∧
    (emptyFields.latitude = none ∧ emptyFields.longitude = none ∧
      emptyFields.altitude = none) ∧
    pick_geo (some (Json.obj [("latitude", Json.int 3), ("longitude", Json.int 0)]))
      = some (Json.int 3, Json.int 0,
          (jlookup [("latitude", Json.int 3), ("longitude", Json.int 0)] "altitude").bind
            (fun al => if isNum al then some al else none)) := by
  refine ⟨rfl, ?_, ?_⟩
  · exact (c5_geo_rules [("geoData", Json.obj
        [("latitude", Json.int 0), ("longitude", Json.int 0),
         ("altitude", Json.int 7)])]).2.2.2.2
      [("latitude", Json.int 0), ("longitude", Json.int 0), ("altitude", Json.int 7)]
      (Json.int 0) (Json.int 0) emptyFields rfl rfl rfl rfl (by decide) (by decide) rfl
  · exact (c5_geo_rules []).2.2.2.1
      [("latitude", Json.int 3), ("longitude", Json.int 0)]
      (Json.int 3) (Json.int 0) rfl rfl rfl rfl (by decide)

/-! ## C4: timestamp extraction -/

lemma ts_of_eq_tsOfChosen (kvs : List (String × Json)) :
    ts_of kvs
      = tsOfChosen (pyOr (jlookup kvs "photoTakenTime") (jlookup kvs "creationTime")) := by
  unfold ts_of tsOfChosen
  cases hx : pyOr (jlookup kvs "photoTakenTime") (jlookup kvs "creationTime") with
  | none => rfl
  | some v =>
      cases v with
      | obj pt => cases h : jlookup pt "timestamp" <;> simp [h]
      | null => rfl
      | bool b => rfl
      | int n => rfl
      | float q => rfl
      | str s => rfl
      | arr xs => rfl

/-- Counterexample to C4 as stated: a document whose `photoTakenTime` block
    is a truthy dict without a `timestamp` key while `creationTime.timestamp`
    holds the valid integer string "123".  The claim's value-level fallback
    predicts `some 123`; the code chooses the `photoTakenTime` block and
    yields none. -/
theorem c4_counterexample :
    ts_of c4Doc = none ∧
    jlookup [("formatted", Json.str "x")] "timestamp" = none ∧
    jlookup c4Doc "creationTime" = some (Json.obj [("timestamp", Json.str "123")]) ∧
    pyInt (Json.str "123") = some 123 :=
  ⟨rfl, rfl, rfl, rfl⟩

/-- C4 (amended): the extractor picks a timestamp *block*, not a timestamp
    value: the `photoTakenTime` entry if it is truthy, otherwise the
    `creationTime` entry; from the chosen block it reads `timestamp` parsed
    as an integer (Python `int`), yielding none when the chosen block is not
    a dict, lacks the key, or the value does not parse — it never falls back
    to `creationTime.timestamp` when a truthy `photoTakenTime` block lacks
    one. -/
theorem c4_timestamp_rules (kvs : List (String × Json)) :
    (∀ pt, jlookup kvs "photoTakenTime" = some pt → truthy pt = true →
       ts_of kvs = tsOfChosen (some pt)) ∧
    (jlookup kvs "photoTakenTime" = none →
       ts_of kvs = tsOfChosen (jlookup kvs "creationTime")) ∧
    (∀ pt, jlookup kvs "photoTakenTime" = some pt → truthy pt = false →
       ts_of kvs = tsOfChosen (jlookup kvs "creationTime")) ∧
    (∀ pt, tsOfChosen (some (Json.obj pt))
       = (jlookup pt "timestamp").bind pyInt) := by
  refine ⟨?_, ?_, ?_, fun pt => rfl⟩
  · intro pt hpt htr
    rw [ts_of_eq_tsOfChosen, hpt]
    simp [pyOr, htr]
  · intro h
    rw [ts_of_eq_tsOfChosen, h]
    rfl
  · intro pt hpt htr
    rw [ts_of_eq_tsOfChosen, hpt]
    simp [pyOr, htr]

/-- Witness for C4: a truthy `photoTakenTime` block is chosen; with no
    `photoTakenTime` the `creationTime` block is chosen and its string
    timestamp parses. -/
theorem c4_timestamp_rules_witness :
    ts_of [("photoTakenTime", Json.obj [("timestamp", Json.int 5)])]
      = tsOfChosen (some (Json.obj [("timestamp", Json.int 5)])) ∧
    ts_of [("creationTime", Json.obj [("timestamp", Json.str "42")])]
      = tsOfChosen (jlookup
          [("creationTime", Json.obj [("timestamp", Json.str "42")])] "creationTime") ∧
    tsOfChosen (some (Json.obj [("timestamp", Json.str "42")])) = some 42 := by
  refine ⟨?_, ?_, rfl⟩
  · exact (c4_timestamp_rules _).1 _ rfl rfl
  · exact (c4_timestamp_rules _).2.1 rfl

/-! ## C2: sidecar resolution -/

lemma find?_congr_local {α : Type} (p q : α → Bool) :
    ∀ l : List α, (∀ x ∈ l, p x = q x) → l.find? p = l.find? q := by
  intro l
  induction l with
  | nil => intro _; rfl
  | cons a l ih =>
      intro h
      have ha := h a (List.mem_cons_self a l)
      rw [List.find?_cons, List.find?_cons, ha]
      cases hq : q a with
      | true => rfl
      | false => exact ih (fun x hx => h x (List.mem_cons_of_mem a hx))

lemma head_insertionSort_find (l : List String) :
    (l.insertionSort (fun a b => a.data.length ≤ b.data.length)).head?
      = l.find? (fun c => l.all (fun d => c.data.length ≤ d.data.length)) := by
  induction l with
  | nil => rfl
  | cons a l ih =>
      rw [List.insertionSort]
      cases hs : List.insertionSort (fun a b => a.data.length ≤ b.data.length) l with
      | nil =>
          have hl : l = [] := by
            have hlen := List.length_insertionSort
              (fun a b : String => a.data.length ≤ b.data.length) l
            rw [hs] at hlen
            exact List.eq_nil_of_length_eq_zero hlen.symm
          subst hl
          simp [List.orderedInsert]
      | cons b tl =>
          have hb : l.find? (fun c => l.all (fun d => c.data.length ≤ d.data.length))
              = some b := by
            rw [← ih, hs]
            rfl
          have hbl : b ∈ l := List.mem_of_find?_eq_some hb
          have hbmin : ∀ d ∈ l, b.data.length ≤ d.data.length := by
            have hpb := List.find?_some hb
            rw [List.all_eq_true] at hpb
            intro d hd
            simpa using hpb d hd
          rw [List.orderedInsert]
          by_cases hab : a.data.length ≤ b.data.length
          · rw [if_pos hab]
            have hpa : ((a :: l).all (fun d => a.data.length ≤ d.data.length))
                = true := by
              rw [List.all_eq_true]
              intro d hd
              rcases List.mem_cons.mp hd with h | h
              · subst h; simp
              · simpa using le_trans hab (hbmin d h)
            rw [List.head?_cons, List.find?_cons, hpa]
          · rw [if_neg hab]
            push_neg at hab
            have hpa : ((a :: l).all (fun d => a.data.length ≤ d.data.length))
                = false := by
              rw [List.all_eq_false]
              refine ⟨b, List.mem_cons_of_mem a hbl, ?_⟩
              simpa using hab
            rw [List.head?_cons, List.find?_cons, hpa]
            rw [find?_congr_local _
              (fun c => l.all (fun d => c.data.length ≤ d.data.length)) l ?_, hb]
            intro x hx
            show ((a :: l).all fun d => decide (x.data.length ≤ d.data.length))
              = (l.all fun d => decide (x.data.length ≤ d.data.length))
            rw [List.all_cons]
            cases hall : l.all (fun d => decide (x.data.length ≤ d.data.length)) with
            | true =>
                have hxb : x.data.length ≤ b.data.length := by
                  rw [List.all_eq_true] at hall
                  simpa using hall b hbl
                have hxa : x.data.length ≤ a.data.length :=
                  le_trans hxb (le_of_lt hab)
                rw [decide_eq_true hxa]
                rfl
            | false => rw [Bool.and_false]

/-- Counterexample to C2 as stated: with no exact sidecar and two glob
    candidates of equal length listed in anti-lexical order, the claimed
    lexical tie-break picks "photo.a.json" but the code's stable
    sort-by-length keeps the listing order and returns "photo.b.json". -/
theorem c2_counterexample :
    find_sidecar_json "photo.jpg" ["photo.b.json", "photo.a.json"]
      = some "photo.b.json" ∧
    findSidecarSpec "photo.jpg" ["photo.b.json", "photo.a.json"]
      = some "photo.a.json" ∧
    "photo.b.json" ≠ "photo.a.json" :=
  ⟨rfl, by decide, by decide⟩

/-- C2 (amended): resolution returns the exact `name ++ ".json"` sidecar
    whenever the listing holds it; otherwise, among the files matching the
    glob pattern `stem*.json` (name = stem ++ anything ++ ".json") that are
    not album-level JSON, it returns the first one, in directory listing
    order, whose filename length is minimal — Python's sort is stable, so
    equal-length ties keep listing order, not lexical order. -/
theorem c2_sidecar_resolution (name : String) (files : List String) :
    (files.contains (name ++ ".json") = true →
      find_sidecar_json name files = some (name ++ ".json")) ∧
    (files.contains (name ++ ".json") = false →
      find_sidecar_json name files
        = (files.filter (fun c => globStemJson (pyStem name) c && !is_album_json c)).find?
            (fun c =>
              (files.filter (fun c2 => globStemJson (pyStem name) c2 && !is_album_json c2)).all
                (fun d => c.data.length ≤ d.data.length))) := by
  constructor
  · intro h
    unfold find_sidecar_json
    rw [if_pos h]
  · intro h
    unfold find_sidecar_json
    have hne : ¬(files.contains (name ++ ".json") = true) := by
      rw [h]
      exact Bool.false_ne_true
    rw [if_neg hne]
    exact head_insertionSort_find _

/-- Witness for C2: the exact sidecar wins when present; otherwise the
    shortest glob candidate is returned. -/
theorem c2_sidecar_resolution_witness :
    find_sidecar_json "a.jpg" ["a.jpg.json", "a.jpg(1).json"]
      = some ("a.jpg" ++ ".json") ∧
    find_sidecar_json "photo.jpg" ["photo.jpg(1).json", "photo.json"]
      = (["photo.jpg(1).json", "photo.json"].filter
          (fun c => globStemJson (pyStem "photo.jpg") c && !is_album_json c)).find?
            (fun c =>
              (["photo.jpg(1).json", "photo.json"].filter
                (fun c2 => globStemJson (pyStem "photo.jpg") c2 && !is_album_json c2)).all
                  (fun d => c.data.length ≤ d.data.length)) ∧
    find_sidecar_json "photo.jpg" ["photo.jpg(1).json", "photo.json"]
      = some "photo.json" :=
  ⟨(c2_sidecar_resolution "a.jpg" ["a.jpg.json", "a.jpg(1).json"]).1 rfl,
   (c2_sidecar_resolution "photo.jpg" ["photo.jpg(1).json", "photo.json"]).2 rfl,
   rfl⟩

/-! ## C3: tool-argument builder -/

lemma pyStartsWith_self_append (p x : String) : pyStartsWith (p ++ x) p = true := by
  unfold pyStartsWith
  refine decide_eq_true ?_
  rw [String.data_append]
  exact List.prefix_append _ _

lemma pyStartsWith_append_false (conc x p : String) (i : Nat)
    (h1 : i < p.data.length) (h2 : i < conc.data.length)
    (h3 : p.data[i]? ≠ conc.data[i]?) :
    pyStartsWith (conc ++ x) p = false := by
  cases hb : pyStartsWith (conc ++ x) p
  · rfl
  · exfalso
    have hpre : p.data <+: (conc ++ x).data := of_decide_eq_true hb
    rw [String.data_append] at hpre
    obtain ⟨tl, htl⟩ := hpre
    apply h3
    have e1 : (p.data ++ tl)[i]? = p.data[i]? := by
      rw [List.getElem?_append, if_pos h1]
    have e2 : (conc.data ++ x.data)[i]? = conc.data[i]? := by
      rw [List.getElem?_append, if_pos h2]
    rw [← e1, htl, e2]

lemma pyStartsWith_append_eval (conc x p : String)
    (h : p.data.length ≤ conc.data.length) :
    pyStartsWith (conc ++ x) p = pyStartsWith conc p := by
  unfold pyStartsWith
  rw [decide_eq_decide, String.data_append]
  constructor
  · intro hp
    rw [List.prefix_iff_eq_take] at hp ⊢
    rwa [List.take_append_of_le_length h] at hp
  · intro hp
    exact hp.trans (List.prefix_append _ _)

lemma pyStartsWith_trans (s p q : String) (h1 : pyStartsWith p q = true)
    (h2 : pyStartsWith s p = true) : pyStartsWith s q = true := by
  refine decide_eq_true ?_
  exact (of_decide_eq_true h1).trans (of_decide_eq_true h2)

lemma preds_of_nondash (s : String) (hs : pyStartsWith s "-" = false) :
    isDateArg s = false ∧ isDescArg s = false ∧ isGpsArg s = false ∧
      isKwArg s = false := by
  have hfalse : ∀ p : String, pyStartsWith p "-" = true → pyStartsWith s p = false := by
    intro p hp
    cases hb : pyStartsWith s p
    · rfl
    · exact absurd (pyStartsWith_trans s p "-" hp hb) (by simp [hs])
  unfold isDateArg isDescArg isGpsArg isKwArg
  rw [hfalse "-DateTimeOriginal=" (by decide), hfalse "-CreateDate=" (by decide),
      hfalse "-ModifyDate=" (by decide), hfalse "-XMP:Description=" (by decide),
      hfalse "-IPTC:Caption-Abstract=" (by decide), hfalse "-GPSLatitude=" (by decide),
      hfalse "-GPSLongitude=" (by decide), hfalse "-GPSAltitude=" (by decide),
      hfalse "-XMP:Subject" (by decide)]
  exact ⟨rfl, rfl, rfl, rfl⟩

lemma argEval_dto (s : String) :
    isDateArg ("-DateTimeOriginal=" ++ s) = true ∧
    isDescArg ("-DateTimeOriginal=" ++ s) = false ∧
    isGpsArg ("-DateTimeOriginal=" ++ s) = false ∧
    isKwArg ("-DateTimeOriginal=" ++ s) = false := by
  unfold isDateArg isDescArg isGpsArg isKwArg
  rw [pyStartsWith_self_append,
      pyStartsWith_append_false _ _ "-XMP:Description=" 1 (by decide) (by decide) (by decide),
      pyStartsWith_append_false _ _ "-IPTC:Caption-Abstract=" 1 (by decide) (by decide) (by decide),
      pyStartsWith_append_false _ _ "-GPSLatitude=" 1 (by decide) (by decide) (by decide),
      pyStartsWith_append_false _ _ "-GPSLongitude=" 1 (by decide) (by decide) (by decide),
      pyStartsWith_append_false _ _ "-GPSAltitude=" 1 (by decide) (by decide) (by decide),
      pyStartsWith_append_false _ _ "-XMP:Subject" 1 (by decide) (by decide) (by decide)]
  exact ⟨rfl, rfl, rfl, rfl⟩

lemma argEval_cd (s : String) :
    isDateArg ("-CreateDate=" ++ s) = true ∧
    isDescArg ("-CreateDate=" ++ s) = false ∧
    isGpsArg ("-CreateDate=" ++ s) = false ∧
    isKwArg ("-CreateDate=" ++ s) = false := by
  unfold isDateArg isDescArg isGpsArg isKwArg
  rw [pyStartsWith_self_append,
      pyStartsWith_append_false _ _ "-DateTimeOriginal=" 1 (by decide) (by decide) (by decide),
      pyStartsWith_append_false _ _ "-XMP:Description=" 1 (by decide) (by decide) (by decide),
      pyStartsWith_append_false _ _ "-IPTC:Caption-Abstract=" 1 (by decide) (by decide) (by decide),
      pyStartsWith_append_false _ _ "-GPSLatitude=" 1 (by decide) (by decide) (by decide),
      pyStartsWith_append_false _ _ "-GPSLongitude=" 1 (by decide) (by decide) (by decide),
      pyStartsWith_append_false _ _ "-GPSAltitude=" 1 (by decide) (by decide) (by decide),
      pyStartsWith_append_false _ _ "-XMP:Subject" 1 (by decide) (by decide) (by decide)]
  exact ⟨rfl, rfl, rfl, rfl⟩

lemma argEval_md (s : String) :
    isDateArg ("-ModifyDate=" ++ s) = true ∧
    isDescArg ("-ModifyDate=" ++ s) = false ∧
    isGpsArg ("-ModifyDate=" ++ s) = false ∧
    isKwArg ("-ModifyDate=" ++ s) = false := by
  unfold isDateArg isDescArg isGpsArg isKwArg
  rw [pyStartsWith_self_append,
      pyStartsWith_append_false _ _ "-DateTimeOriginal=" 1 (by decide) (by decide) (by decide),
      pyStartsWith_append_false _ _ "-CreateDate=" 1 (by decide) (by decide) (by decide),
      pyStartsWith_append_false _ _ "-XMP:Description=" 1 (by decide) (by decide) (by decide),
      pyStartsWith_append_false _ _ "-IPTC:Caption-Abstract=" 1 (by decide) (by decide) (by decide),
      pyStartsWith_append_false _ _ "-GPSLatitude=" 1 (by decide) (by decide) (by decide),
      pyStartsWith_append_false _ _ "-GPSLongitude=" 1 (by decide) (by decide) (by decide),
      pyStartsWith_append_false _ _ "-GPSAltitude=" 1 (by decide) (by decide) (by decide),
      pyStartsWith_append_false _ _ "-XMP:Subject" 1 (by decide) (by decide) (by decide)]
  exact ⟨rfl, rfl, rfl, rfl⟩

lemma argEval_glat (s : String) :
    isDateArg ("-GPSLatitude=" ++ s) = false ∧
    isDescArg ("-GPSLatitude=" ++ s) = false ∧
    isGpsArg ("-GPSLatitude=" ++ s) = true ∧
    isKwArg ("-GPSLatitude=" ++ s) = false := by
  unfold isDateArg isDescArg isGpsArg isKwArg
  rw [pyStartsWith_self_append,
      pyStartsWith_append_false _ _ "-DateTimeOriginal=" 1 (by decide) (by decide) (by decide),
      pyStartsWith_append_false _ _ "-CreateDate=" 1 (by decide) (by decide) (by decide),
      pyStartsWith_append_false _ _ "-ModifyDate=" 1 (by decide) (by decide) (by decide),
      pyStartsWith_append_false _ _ "-XMP:Description=" 1 (by decide) (by decide) (by decide),
      pyStartsWith_append_false _ _ "-IPTC:Caption-Abstract=" 1 (by decide) (by decide) (by decide),
      pyStartsWith_append_false _ _ "-XMP:Subject" 1 (by decide) (by decide) (by decide)]
  exact ⟨rfl, rfl, rfl, rfl⟩

lemma argEval_glon (s : String) :
    isDateArg ("-GPSLongitude=" ++ s) = false ∧
    isDescArg ("-GPSLongitude=" ++ s) = false ∧
    isGpsArg ("-GPSLongitude=" ++ s) = true ∧
    isKwArg ("-GPSLongitude=" ++ s) = false := by
  unfold isDateArg isDescArg isGpsArg isKwArg
  rw [pyStartsWith_self_append,
      pyStartsWith_append_false _ _ "-DateTimeOriginal=" 1 (by decide) (by decide) (by decide),
      pyStartsWith_append_false _ _ "-CreateDate=" 1 (by decide) (by decide) (by decide),
      pyStartsWith_append_false _ _ "-ModifyDate=" 1 (by decide) (by decide) (by decide),
      pyStartsWith_append_false _ _ "-XMP:Description=" 1 (by decide) (by decide) (by decide),
      pyStartsWith_append_false _ _ "-IPTC:Caption-Abstract=" 1 (by decide) (by decide) (by decide),
      pyStartsWith_append_false _ _ "-GPSLatitude=" 5 (by decide) (by decide) (by decide),
      pyStartsWith_append_false _ _ "-XMP:Subject" 1 (by decide) (by decide) (by decide)]
  exact ⟨rfl, rfl, rfl, rfl⟩

lemma argEval_galt (s : String) :
    isDateArg ("-GPSAltitude=" ++ s) = false ∧
    isDescArg ("-GPSAltitude=" ++ s) = false ∧
    isGpsArg ("-GPSAltitude=" ++ s) = true ∧
    isKwArg ("-GPSAltitude=" ++ s) = false := by
  unfold isDateArg isDescArg isGpsArg isKwArg
  rw [pyStartsWith_self_append,
      pyStartsWith_append_false _ _ "-DateTimeOriginal=" 1 (by decide) (by decide) (by decide),
      pyStartsWith_append_false _ _ "-CreateDate=" 1 (by decide) (by decide) (by decide),
      pyStartsWith_append_false _ _ "-ModifyDate=" 1 (by decide) (by decide) (by decide),
      pyStartsWith_append_false _ _ "-XMP:Description=" 1 (by decide) (by decide) (by decide),
      pyStartsWith_append_false _ _ "-IPTC:Caption-Abstract=" 1 (by decide) (by decide) (by decide),
      pyStartsWith_append_false _ _ "-GPSLatitude=" 4 (by decide) (by decide) (by decide),
      pyStartsWith_append_false _ _ "-GPSLongitude=" 4 (by decide) (by decide) (by decide),
      pyStartsWith_append_false _ _ "-XMP:Subject" 1 (by decide) (by decide) (by decide)]
  exact ⟨rfl, rfl, rfl, rfl⟩

lemma argEval_xd (s : String) :
    isDateArg ("-XMP:Description=" ++ s) = false ∧
    isDescArg ("-XMP:Description=" ++ s) = true ∧
    isGpsArg ("-XMP:Description=" ++ s) = false ∧
    isKwArg ("-XMP:Description=" ++ s) = false := by
  unfold isDateArg isDescArg isGpsArg isKwArg
  rw [pyStartsWith_self_append,
      pyStartsWith_append_false _ _ "-DateTimeOriginal=" 1 (by decide) (by decide) (by decide),
      pyStartsWith_append_false _ _ "-CreateDate=" 1 (by decide) (by decide) (by decide),
      pyStartsWith_append_false _ _ "-ModifyDate=" 1 (by decide) (by decide) (by decide),
      pyStartsWith_append_false _ _ "-GPSLatitude=" 1 (by decide) (by decide) (by decide),
      pyStartsWith_append_false _ _ "-GPSLongitude=" 1 (by decide) (by decide) (by decide),
      pyStartsWith_append_false _ _ "-GPSAltitude=" 1 (by decide) (by decide) (by decide),
      pyStartsWith_append_false _ _ "-XMP:Subject" 5 (by decide) (by decide) (by decide)]
  exact ⟨rfl, rfl, rfl, rfl⟩

lemma argEval_iptc (s : String) :
    isDateArg ("-IPTC:Caption-Abstract=" ++ s) = false ∧
    isDescArg ("-IPTC:Caption-Abstract=" ++ s) = true ∧
    isGpsArg ("-IPTC:Caption-Abstract=" ++ s) = false ∧
    isKwArg ("-IPTC:Caption-Abstract=" ++ s) = false := by
  unfold isDateArg isDescArg isGpsArg isKwArg
  rw [pyStartsWith_self_append,
      pyStartsWith_append_false _ _ "-DateTimeOriginal=" 1 (by decide) (by decide) (by decide),
      pyStartsWith_append_false _ _ "-CreateDate=" 1 (by decide) (by decide) (by decide),
      pyStartsWith_append_false _ _ "-ModifyDate=" 1 (by decide) (by decide) (by decide),
      pyStartsWith_append_false _ _ "-XMP:Description=" 1 (by decide) (by decide) (by decide),
      pyStartsWith_append_false _ _ "-GPSLatitude=" 1 (by decide) (by decide) (by decide),
      pyStartsWith_append_false _ _ "-GPSLongitude=" 1 (by decide) (by decide) (by decide),
      pyStartsWith_append_false _ _ "-GPSAltitude=" 1 (by decide) (by decide) (by decide),
      pyStartsWith_append_false _ _ "-XMP:Subject" 1 (by decide) (by decide) (by decide)]
  exact ⟨rfl, rfl, rfl, rfl⟩

lemma argEval_kw (k : String) :
    isDateArg ("-XMP:Subject+=-" ++ k ++ "-") = false ∧
    isDescArg ("-XMP:Subject+=-" ++ k ++ "-") = false ∧
    isGpsArg ("-XMP:Subject+=-" ++ k ++ "-") = false ∧
    isKwArg ("-XMP:Subject+=-" ++ k ++ "-") = true := by
  unfold isDateArg isDescArg isGpsArg isKwArg
  rw [String.append_assoc]
  rw [pyStartsWith_append_eval _ _ "-XMP:Subject" (by decide),
      pyStartsWith_append_false _ _ "-DateTimeOriginal=" 1 (by decide) (by decide) (by decide),
      pyStartsWith_append_false _ _ "-CreateDate=" 1 (by decide) (by decide) (by decide),
      pyStartsWith_append_false _ _ "-ModifyDate=" 1 (by decide) (by decide) (by decide),
      pyStartsWith_append_false _ _ "-XMP:Description=" 5 (by decide) (by decide) (by decide),
      pyStartsWith_append_false _ _ "-IPTC:Caption-Abstract=" 1 (by decide) (by decide) (by decide),
      pyStartsWith_append_false _ _ "-GPSLatitude=" 1 (by decide) (by decide) (by decide),
      pyStartsWith_append_false _ _ "-GPSLongitude=" 1 (by decide) (by decide) (by decide),
      pyStartsWith_append_false _ _ "-GPSAltitude=" 1 (by decide) (by decide) (by decide)]
  exact ⟨rfl, rfl, rfl, by decide⟩

lemma argEval_concrete :
    (isDateArg "-overwrite_original" = false ∧ isDescArg "-overwrite_original" = false ∧
     isGpsArg "-overwrite_original" = false ∧ isKwArg "-overwrite_original" = false) ∧
    (isDateArg "-P" = false ∧ isDescArg "-P" = false ∧
     isGpsArg "-P" = false ∧ isKwArg "-P" = false) ∧
    (isDateArg "-m" = false ∧ isDescArg "-m" = false ∧
     isGpsArg "-m" = false ∧ isKwArg "-m" = false) ∧
    (isDateArg "-n" = false ∧ isDescArg "-n" = false ∧
     isGpsArg "-n" = false ∧ isKwArg "-n" = false) ∧
    (isDateArg "-XMP:Subject=" = false ∧ isDescArg "-XMP:Subject=" = false ∧
     isGpsArg "-XMP:Subject=" = false ∧ isKwArg "-XMP:Subject=" = true) := by
  decide

lemma kwmap_filter_false (p : String → Bool)
    (hp : ∀ k : String, p ("-XMP:Subject+=-" ++ k ++ "-") = false) :
    ∀ l : List String,
    (l.map (fun kw => "-XMP:Subject+=-" ++ kw ++ "-")).filter p = [] := by
  intro l
  induction l with
  | nil => rfl
  | cons k rest ih => simp [List.filter_cons, hp k, ih]

lemma kwmap_filter_true (p : String → Bool)
    (hp : ∀ k : String, p ("-XMP:Subject+=-" ++ k ++ "-") = true) :
    ∀ l : List String,
    (l.map (fun kw => "-XMP:Subject+=-" ++ kw ++ "-")).filter p
      = l.map (fun kw => "-XMP:Subject+=-" ++ kw ++ "-") := by
  intro l
  induction l with
  | nil => rfl
  | cons k rest ih => simp [List.filter_cons, hp k, ih]

/-- Counterexample to C3 as stated: fields whose timestamp is present but
    zero (the epoch — falsy in Python) and whose description is present but
    empty (falsy) produce no date argument and no description argument; and
    the keyword append argument's value is the keyword wrapped in hyphens
    ("-Alice-"), not the keyword itself. -/
theorem c3_counterexample :
    c3Fields.taken_timestamp = some 0 ∧
    c3Fields.description = some (Json.str "") ∧
    c3Fields.keywords = ["Alice"] ∧
    (build_exiftool_args "exiftool" true c3Fields "t.jpg").countP
        (fun a => isDateArg a) = 0 ∧
    (build_exiftool_args "exiftool" true c3Fields "t.jpg").countP
        (fun a => isDescArg a) = 0 ∧
    (build_exiftool_args "exiftool" true c3Fields "t.jpg").contains
        "-XMP:Subject+=Alice" = false ∧
    (build_exiftool_args "exiftool" true c3Fields "t.jpg").contains
        "-XMP:Subject+=-Alice-" = true :=
  ⟨rfl, rfl, rfl, by decide, by decide, by decide, by decide⟩

/-- C3 (amended): for fields with a nonzero timestamp, a truthy (non-empty)
    description, latitude, longitude and altitude all present and a
    non-empty keyword list, with overwrite requested, and for an executable
    path and target not starting with a dash: the argument vector carries
    the UTC-formatted timestamp in exactly the three date-field arguments,
    the description in exactly two description-like arguments, exactly the
    three GPS arguments, one clear-keywords argument followed by one append
    argument per keyword in original order whose appended value is the
    keyword wrapped in hyphens, and the target path as the final argument. -/
theorem c3_builder_arguments (et tgt : String) (f : GoogleFields)
    (t : Int) (d la lo al : Json)
    (hts : f.taken_timestamp = some t) (ht0 : t ≠ 0)
    (hd : f.description = some d) (hdt : truthy d = true)
    (hla : f.latitude = some la) (hlo : f.longitude = some lo)
    (hal : f.altitude = some al) (hkw : f.keywords ≠ [])
    (het : pyStartsWith et "-" = false) (htgt : pyStartsWith tgt "-" = false) :
    (build_exiftool_args et true f tgt).filter (fun a => isDateArg a)
      = ["-DateTimeOriginal=" ++ utcStamp t, "-CreateDate=" ++ utcStamp t,
         "-ModifyDate=" ++ utcStamp t] ∧
    (build_exiftool_args et true f tgt).filter (fun a => isDescArg a)
      = ["-XMP:Description=" ++ fStr d, "-IPTC:Caption-Abstract=" ++ fStr d] ∧
    (build_exiftool_args et true f tgt).filter (fun a => isGpsArg a)
      = ["-GPSLatitude=" ++ fStr la, "-GPSLongitude=" ++ fStr lo,
         "-GPSAltitude=" ++ fStr al] ∧
    (build_exiftool_args et true f tgt).filter (fun a => isKwArg a)
      = "-XMP:Subject=" ::
          f.keywords.map (fun kw => "-XMP:Subject+=-" ++ kw ++ "-") ∧
    (build_exiftool_args et true f tgt).getLast? = some tgt := by
  have hbeq : (t == 0) = false := by simpa using ht0
  have hkwE : f.keywords.isEmpty = false := by
    cases hk : f.keywords
    · exact absurd hk hkw
    · rfl
  have hargs : build_exiftool_args et true f tgt
      = ([et, "-overwrite_original", "-P", "-m", "-n",
          "-DateTimeOriginal=" ++ utcStamp t, "-CreateDate=" ++ utcStamp t,
          "-ModifyDate=" ++ utcStamp t,
          "-GPSLatitude=" ++ fStr la, "-GPSLongitude=" ++ fStr lo,
          "-GPSAltitude=" ++ fStr al,
          "-XMP:Description=" ++ fStr d, "-IPTC:Caption-Abstract=" ++ fStr d,
          "-XMP:Subject="] ++
         f.keywords.map (fun kw => "-XMP:Subject+=-" ++ kw ++ "-")) ++ [tgt] := by
    unfold build_exiftool_args
    rw [hts, hla, hlo, hal, hd]
    simp [hbeq, hdt, hkwE]
  have hper := preds_of_nondash et het
  have hper2 := preds_of_nondash tgt htgt
  rw [hargs]
  refine ⟨?_, ?_, ?_, ?_, ?_⟩
  · rw [List.filter_append, List.filter_append,
      kwmap_filter_false _ (fun k => (argEval_kw k).1) f.keywords]
    simp [List.filter_cons, hper.1, hper2.1, argEval_concrete.1.1,
      argEval_concrete.2.1.1, argEval_concrete.2.2.1.1, argEval_concrete.2.2.2.1.1,
      argEval_concrete.2.2.2.2.1, (argEval_dto (utcStamp t)).1,
      (argEval_cd (utcStamp t)).1, (argEval_md (utcStamp t)).1,
      (argEval_glat (fStr la)).1, (argEval_glon (fStr lo)).1,
      (argEval_galt (fStr al)).1, (argEval_xd (fStr d)).1,
      (argEval_iptc (fStr d)).1]
  · rw [List.filter_append, List.filter_append,
      kwmap_filter_false _ (fun k => (argEval_kw k).2.1) f.keywords]
    simp [List.filter_cons, hper.2.1, hper2.2.1, argEval_concrete.1.2.1,
      argEval_concrete.2.1.2.1, argEval_concrete.2.2.1.2.1,
      argEval_concrete.2.2.2.1.2.1, argEval_concrete.2.2.2.2.2.1,
      (argEval_dto (utcStamp t)).2.1, (argEval_cd (utcStamp t)).2.1,
      (argEval_md (utcStamp t)).2.1, (argEval_glat (fStr la)).2.1,
      (argEval_glon (fStr lo)).2.1, (argEval_galt (fStr al)).2.1,
      (argEval_xd (fStr d)).2.1, (argEval_iptc (fStr d)).2.1]
  · rw [List.filter_append, List.filter_append,
      kwmap_filter_false _ (fun k => (argEval_kw k).2.2.1) f.keywords]
    simp [List.filter_cons, hper.2.2.1, hper2.2.2.1, argEval_concrete.1.2.2.1,
      argEval_concrete.2.1.2.2.1, argEval_concrete.2.2.1.2.2.1,
      argEval_concrete.2.2.2.1.2.2.1, argEval_concrete.2.2.2.2.2.2.1,
      (argEval_dto (utcStamp t)).2.2.1, (argEval_cd (utcStamp t)).2.2.1,
      (argEval_md (utcStamp t)).2.2.1, (argEval_glat (fStr la)).2.2.1,
      (argEval_glon (fStr lo)).2.2.1, (argEval_galt (fStr al)).2.2.1,
      (argEval_xd (fStr d)).2.2.1, (argEval_iptc (fStr d)).2.2.1]
  · rw [List.filter_append, List.filter_append,
      kwmap_filter_true _ (fun k => (argEval_kw k).2.2.2) f.keywords]
    simp [List.filter_cons, hper.2.2.2, hper2.2.2.2, argEval_concrete.1.2.2.2,
      argEval_concrete.2.1.2.2.2, argEval_concrete.2.2.1.2.2.2,
      argEval_concrete.2.2.2.1.2.2.2, argEval_concrete.2.2.2.2.2.2.2,
      (argEval_dto (utcStamp t)).2.2.2, (argEval_cd (utcStamp t)).2.2.2,
      (argEval_md (utcStamp t)).2.2.2, (argEval_glat (fStr la)).2.2.2,
      (argEval_glon (fStr lo)).2.2.2, (argEval_galt (fStr al)).2.2.2,
      (argEval_xd (fStr d)).2.2.2, (argEval_iptc (fStr d)).2.2.2]
  · exact List.getLast?_concat _

/-- Witness for C3 at concrete fields with two keywords. -/
theorem c3_builder_arguments_witness :
    (build_exiftool_args "exiftool" true
        { taken_timestamp := some 1681564222, description := some (Json.str "D")
          latitude := some (Json.int 1), longitude := some (Json.int 2)
          altitude := some (Json.int 3), keywords := ["Alice", "Bob"] }
        "photo.jpg").filter (fun a => isDateArg a)
      = ["-DateTimeOriginal=" ++ utcStamp 1681564222,
         "-CreateDate=" ++ utcStamp 1681564222,
         "-ModifyDate=" ++ utcStamp 1681564222] ∧
    (build_exiftool_args "exiftool" true
        { taken_timestamp := some 1681564222, description := some (Json.str "D")
          latitude := some (Json.int 1), longitude := some (Json.int 2)
          altitude := some (Json.int 3), keywords := ["Alice", "Bob"] }
        "photo.jpg").filter (fun a => isKwArg a)
      = "-XMP:Subject=" ::
          ["Alice", "Bob"].map (fun kw => "-XMP:Subject+=-" ++ kw ++ "-") ∧
    (build_exiftool_args "exiftool" true
        { taken_timestamp := some 1681564222, description := some (Json.str "D")
          latitude := some (Json.int 1), longitude := some (Json.int 2)
          altitude := some (Json.int 3), keywords := ["Alice", "Bob"] }
        "photo.jpg").getLast? = some "photo.jpg" := by
  have h := c3_builder_arguments "exiftool" "photo.jpg"
    { taken_timestamp := some 1681564222, description := some (Json.str "D")
      latitude := some (Json.int 1), longitude := some (Json.int 2)
      altitude := some (Json.int 3), keywords := ["Alice", "Bob"] }
    1681564222 (Json.str "D") (Json.int 1) (Json.int 2) (Json.int 3)
    rfl (by decide) rfl rfl rfl rfl rfl (by decide) (by decide) (by decide)
  exact ⟨h.1, h.2.2.2.1, h.2.2.2.2⟩
